import Mathlib

/-!
Shallow embedding of `src/main.py` and `src/lambda_function.py` of the
`terraform-aws-ssm-session-alerts` repository: an AWS Lambda that turns an SSM
session CloudTrail event into a Slack Block Kit payload and posts it to a
webhook.

Python dynamic values are modelled by `JValue`; Python attribute errors /
type errors raised by the code are modelled by `Except String`; the process
environment is an explicit `Env` record; the network is an explicit transport
function, and `send_to_slack` additionally returns the list of HTTP requests
it attempted.
-/

namespace SSM

/-- A Python/JSON dynamic value as handled by the Lambda code: `None`, bools,
ints, strings, lists and dicts (dicts as association lists in insertion
order, as Python 3.7+ dicts preserve insertion order). -/
inductive JValue where
  | null : JValue
  | bool (b : Bool) : JValue
  | num (n : Int) : JValue
  | str (s : String) : JValue
  | arr (xs : List JValue) : JValue
  | obj (fields : List (String × JValue)) : JValue
deriving Repr

/-- Python `v == "literal"` — the only equality-comparison shape the code
uses: true exactly when `v` is that string (a non-string compared to a
string is unequal in Python). -/
def eqStr (v : JValue) (s : String) : Bool :=
  match v with
  | .str t => t == s
  | _ => false

/-- `eqStr` decides propositional equality with a string value. -/
theorem eqStr_iff (v : JValue) (s : String) : eqStr v s = true ↔ v = .str s := by
  cases v <;> simp [eqStr]

/-- Python truthiness (`bool(v)`): `None`, `False`, `0`, `""`, `[]`, `{}` are
falsy, everything else truthy. -/
def truthy : JValue → Bool
  | .null => false
  | .bool b => b
  | .num n => n != 0
  | .str s => !s.isEmpty
  | .arr xs => !xs.isEmpty
  | .obj fs => !fs.isEmpty

/-- First binding of key `k` in a dict's field list. -/
def lookup (fs : List (String × JValue)) (k : String) : Option JValue :=
  match fs with
  | [] => none
  | (k2, v) :: rest => if k2 = k then some v else lookup rest k

/-- Python `a or b` on already-evaluated values. -/
def pyOr (a b : JValue) : JValue :=
  if truthy a then a else b

/-- Python `a or b` where each operand may raise: the right operand's effect
only happens when the left is falsy (Python short-circuit). -/
def pyOrE (a b : Except String JValue) : Except String JValue := do
  let va ← a
  if truthy va then pure va else b

/-- Python `v.get(k, d)`: dict lookup with default; raises `AttributeError`
when `v` is not a dict. -/
def getD (v : JValue) (k : String) (d : JValue) : Except String JValue :=
  match v with
  | .obj fs => .ok ((lookup fs k).getD d)
  | _ => .error "AttributeError: no attribute get"

/-- Python `s.split(sep)` for a single-character separator: split on every
occurrence, keeping empty segments; never returns an empty list. -/
def splitCh (c : Char) : List Char → List (List Char)
  | [] => [[]]
  | x :: xs =>
    match splitCh c xs with
    | [] => [[]]
    | h :: t => if x = c then [] :: h :: t else (x :: h) :: t

/-- Python `str.strip()` whitespace set (ASCII part). -/
def isSpaceCh (c : Char) : Bool :=
  c = ' ' || c = '	' || c = '
' || c = '
' || c = '' || c = ''

/-- Python `s.strip()`. -/
def pyStrip (s : String) : String :=
  String.mk (((s.toList.dropWhile isSpaceCh).reverse.dropWhile isSpaceCh).reverse)

/-- Python `s.startswith(pre)` (over code points). -/
def pyStartsWith (s pre : String) : Bool :=
  (pre.toList).isPrefixOf (s.toList)

/-- Python `s.lower()` (ASCII lowering; the code's inputs are ASCII). -/
def pyLower (s : String) : String :=
  String.mk (s.toList.map Char.toLower)

/-- Python `"\n".join(lines)`. -/
def joinNL : List String → String
  | [] => ""
  | [x] => x
  | x :: xs => x ++ "\n" ++ joinNL xs

/-- Python `needle in hay` on strings: contiguous-substring test. -/
def subOf (needle : List Char) : List Char → Bool
  | [] => needle.isEmpty
  | c :: t => needle.isPrefixOf (c :: t) || subOf needle t

mutual

/-- Python `repr` as it appears through `str()` interpolation of containers:
`None`/`True`/`False`, decimal ints, single-quoted strings (quote/backslash
escaping inside nested strings is not modelled), lists and dicts. -/
def pyRepr : JValue → String
  | .null => "None"
  | .bool b => if b then "True" else "False"
  | .num n => toString n
  | .str s => "\x27" ++ s ++ "\x27"
  | .arr xs => "[" ++ pyReprList xs ++ "]"
  | .obj fs => "\x7b" ++ pyReprFields fs ++ "\x7d"

def pyReprList : List JValue → String
  | [] => ""
  | [x] => pyRepr x
  | x :: xs => pyRepr x ++ ", " ++ pyReprList xs

def pyReprFields : List (String × JValue) → String
  | [] => ""
  | [(k, v)] => "\x27" ++ k ++ "\x27: " ++ pyRepr v
  | (k, v) :: fs => "\x27" ++ k ++ "\x27: " ++ pyRepr v ++ ", " ++ pyReprFields fs

end

/-- Python `str(v)` as used by f-string interpolation. -/
def pyStr : JValue → String
  | .str s => s
  | v => pyRepr v

/-- `build_user_summary` (identical in `main.py:20-56` and
`lambda_function.py:20-56`): returns a short user string and a dict of extra
user fields.  Raises (models Python `TypeError`) when the input is an
`AssumedRole` dict whose `arn` is a truthy non-string, or whose
`sessionContext` / `sessionIssuer` values are present but not dicts. -/
def build_user_summary (user_identity : JValue) :
    Except String (JValue × List (String × JValue)) :=
  match user_identity with
  | .obj fs =>
    let utype := (lookup fs "type").getD .null
    let account_id := (lookup fs "accountId").getD .null
    let principal := (lookup fs "principalId").getD .null
    let arn := pyOr ((lookup fs "arn").getD .null) (.str "")
    let username := (lookup fs "userName").getD .null
    let extras : List (String × JValue) :=
      [("Account", pyOr account_id (.str "-")), ("Principal", pyOr principal (.str "-"))]
    if eqStr utype "IAMUser" then
      .ok (pyOr username (pyOr principal (.str "iam-user")),
           extras ++ [("UserType", .str "IAMUser")])
    else if eqStr utype "AssumedRole" then do
      let session_name ←
        match arn with
        | .str s =>
          if s.toList.contains '/' then
            pure (JValue.str (String.mk ((splitCh '/' s.toList).getLastD [])))
          else
            pure (pyOr username (pyOr principal (.str "assumed-role")))
        | _ => .error "TypeError: argument of type int is not iterable"
      let sc := (lookup fs "sessionContext").getD (.obj [])
      let si ← getD sc "sessionIssuer" (.obj [])
      let issuer_raw ← getD si "arn" .null
      let issuer := pyOr issuer_raw (.str "-")
      .ok (session_name,
           extras ++ [("UserType", .str "AssumedRole"), ("RoleIssuer", issuer)])
    else if eqStr utype "Root" then
      .ok (.str "Root", extras ++ [("UserType", .str "Root")])
    else
      .ok (pyOr username (pyOr principal (pyOr arn (.str "unknown"))),
           extras ++ [("UserType", pyOr utype (.str "Unknown"))])
  | _ => .ok (.str "unknown", [])

/-! ### Timestamp normalizer (`to_iso8601`, `main.py:59-68` = `lambda_function.py:59-68`)

The Python code does `datetime.fromisoformat(ts.replace("Z", "+00:00"))`,
converts to UTC with `astimezone(timezone.utc)` and prints with
`strftime("%Y-%m-%d %H:%M:%SZ")`, returning the original string on any
exception.  We model `fromisoformat` by the grammar documented for Python
(`YYYY-MM-DD[*HH[:MM[:SS[.fff[fff]]]][+HH:MM[:SS]]]`, any single separator
character, ASCII digits, field ranges validated as `datetime` does, years
1-9999), `astimezone` under the Lambda default `TZ=UTC` (a naive datetime
keeps its wall-clock reading), and `strftime` with glibc's unpadded `%Y` and
zero-padded two-digit fields.  Out-of-range results (beyond year 1..9999,
Python `OverflowError`) are also caught by the `except` and yield the
original string. -/

/-- Gregorian leap year, as Python `calendar`/`datetime` use. -/
def isLeap (y : Nat) : Bool :=
  y % 4 == 0 && (y % 100 != 0 || y % 400 == 0)

/-- Days in month `mo` of year `y`. -/
def daysInMonth (y mo : Nat) : Nat :=
  if mo = 2 then (if isLeap y then 29 else 28)
  else if mo = 4 ∨ mo = 6 ∨ mo = 9 ∨ mo = 11 then 30
  else 31

/-- A `datetime` value with seconds resolution (fractional seconds are
validated during parsing but dropped by the `%S` output format). -/
structure DT where
  y : Nat
  mo : Nat
  d : Nat
  hh : Nat
  mi : Nat
  ss : Nat
deriving DecidableEq, Repr

/-- ASCII digit test (`0`-`9`), as `fromisoformat` accepts. -/
def isDigitCh (c : Char) : Bool :=
  48 ≤ c.toNat && c.toNat ≤ 57

/-- Read one ASCII digit. -/
def rdDigit : List Char → Option (Nat × List Char)
  | c :: rest => if isDigitCh c then some (c.toNat - 48, rest) else none
  | [] => none

/-- Read exactly two ASCII digits. -/
def rd2 (cs : List Char) : Option (Nat × List Char) := do
  let (a, cs1) ← rdDigit cs
  let (b, cs2) ← rdDigit cs1
  pure (10 * a + b, cs2)

/-- Read exactly four ASCII digits. -/
def rd4 (cs : List Char) : Option (Nat × List Char) := do
  let (a, cs1) ← rd2 cs
  let (b, cs2) ← rd2 cs1
  pure (100 * a + b, cs2)

/-- Read one expected character. -/
def rdChar (c : Char) : List Char → Option (List Char)
  | x :: rest => if x = c then some rest else none
  | [] => none

/-- Read the optional trailing timezone designator `±HH:MM[:SS]` (must end
the string); `none` in the result means a naive datetime. -/
def rdTz : List Char → Option (Option Int)
  | [] => some none
  | c :: rest =>
    if c = '+' ∨ c = '-' then do
      let (h, cs1) ← rd2 rest
      let cs2 ← rdChar ':' cs1
      let (m, cs3) ← rd2 cs2
      let (s, cs4) ←
        match cs3 with
        | ':' :: cs5 => rd2 cs5
        | _ => some (0, cs3)
      match cs4 with
      | [] =>
        if h ≤ 23 ∧ m ≤ 59 ∧ s ≤ 59 then
          let total : Int := (h : Int) * 3600 + (m : Int) * 60 + (s : Int)
          some (some (if c = '-' then -total else total))
        else none
      | _ => none
    else none

/-- Read the optional fractional-seconds part (exactly 3 or 6 digits). -/
def rdFrac : List Char → Option (List Char)
  | '.' :: cs =>
    let ds := cs.takeWhile isDigitCh
    if ds.length = 3 ∨ ds.length = 6 then some (cs.drop ds.length) else none
  | cs => some cs

/-- Read the time-of-day part `HH[:MM[:SS[.frac]]]` followed by the optional
timezone, validating ranges as `datetime` does. -/
def rdTime (cs : List Char) : Option (Nat × Nat × Nat × Option Int) := do
  let (hh, cs1) ← rd2 cs
  if hh ≤ 23 then
    match cs1 with
    | ':' :: cs2 => do
      let (mi, cs3) ← rd2 cs2
      if mi ≤ 59 then
        match cs3 with
        | ':' :: cs4 => do
          let (ss, cs5) ← rd2 cs4
          if ss ≤ 59 then do
            let cs6 ← rdFrac cs5
            let off ← rdTz cs6
            pure (hh, mi, ss, off)
          else none
        | _ => do
          let off ← rdTz cs3
          pure (hh, mi, 0, off)
      else none
    | _ => do
      let off ← rdTz cs1
      pure (hh, 0, 0, off)
  else none

/-- `datetime.fromisoformat`: `YYYY-MM-DD`, then optionally one arbitrary
separator character and a time-of-day with optional timezone. -/
def parseDT (cs : List Char) : Option (DT × Option Int) := do
  let (y, cs1) ← rd4 cs
  let cs2 ← rdChar '-' cs1
  let (mo, cs3) ← rd2 cs2
  let cs4 ← rdChar '-' cs3
  let (d, cs5) ← rd2 cs4
  if 1 ≤ y ∧ 1 ≤ mo ∧ mo ≤ 12 ∧ 1 ≤ d ∧ d ≤ daysInMonth y mo then
    match cs5 with
    | [] => pure (⟨y, mo, d, 0, 0, 0⟩, none)
    | _sep :: timecs => do
      let (hh, mi, ss, off) ← rdTime timecs
      pure (⟨y, mo, d, hh, mi, ss⟩, off)
  else none

/-- Calendar successor of a date; `none` past `datetime.MAXYEAR` (9999). -/
def nextDay (y mo d : Nat) : Option (Nat × Nat × Nat) :=
  if d < daysInMonth y mo then some (y, mo, d + 1)
  else if mo < 12 then some (y, mo + 1, 1)
  else if y < 9999 then some (y + 1, 1, 1)
  else none

/-- Calendar predecessor of a date; `none` before `datetime.MINYEAR` (1). -/
def prevDay (y mo d : Nat) : Option (Nat × Nat × Nat) :=
  if 2 ≤ d then some (y, mo, d - 1)
  else if 2 ≤ mo then some (y, mo - 1, daysInMonth y (mo - 1))
  else if 2 ≤ y then some (y - 1, 12, 31)
  else none

/-- `astimezone(timezone.utc)` under `TZ=UTC`: a naive datetime is
reinterpreted in the local (= UTC) zone unchanged; an aware datetime has its
offset subtracted, shifting by at most one calendar day since `|offset| <
24h`; leaving years 1..9999 raises `OverflowError` (modelled as `none`). -/
def toUTC (dt : DT) (off : Option Int) : Option DT :=
  match off with
  | none => some dt
  | some o =>
    let t : Int := (dt.hh : Int) * 3600 + (dt.mi : Int) * 60 + (dt.ss : Int) - o
    if t < 0 then
      (prevDay dt.y dt.mo dt.d).map fun x =>
        let u := (t + 86400).toNat
        ⟨x.1, x.2.1, x.2.2, u / 3600, u % 3600 / 60, u % 60⟩
    else if 86400 ≤ t then
      (nextDay dt.y dt.mo dt.d).map fun x =>
        let u := (t - 86400).toNat
        ⟨x.1, x.2.1, x.2.2, u / 3600, u % 3600 / 60, u % 60⟩
    else
      some ⟨dt.y, dt.mo, dt.d, t.toNat / 3600, t.toNat % 3600 / 60, t.toNat % 60⟩

/-- ASCII digit character for a digit value. -/
def dc (n : Nat) : Char := Char.ofNat (48 + n)

/-- Two-digit zero-padded field (`%m`, `%d`, `%H`, `%M`, `%S`). -/
def pad2 (n : Nat) : List Char := [dc (n / 10), dc (n % 10)]

/-- Decimal digits of `n` without padding (glibc `%Y`), with a structural
fuel argument (`n` has at most `n + 1` digits, so the fuel never runs
out). -/
def natCharsB : Nat → Nat → List Char
  | 0, _ => []
  | f + 1, n => if n < 10 then [dc n] else natCharsB f (n / 10) ++ [dc (n % 10)]

/-- Decimal digits of `n` without padding (glibc `%Y`). -/
def natChars (n : Nat) : List Char := natCharsB (n + 1) n

/-- `strftime("%Y-%m-%d %H:%M:%SZ")` character list. -/
def fmtChars (dt : DT) : List Char :=
  natChars dt.y ++ '-' :: (pad2 dt.mo ++ '-' :: (pad2 dt.d ++ ' ' ::
    (pad2 dt.hh ++ ':' :: (pad2 dt.mi ++ ':' :: (pad2 dt.ss ++ ['Z'])))))

/-- `strftime("%Y-%m-%d %H:%M:%SZ")`. -/
def fmtDT (dt : DT) : String := String.mk (fmtChars dt)

/-- `ts.replace("Z", "+00:00")` (the needle is a single character, so this is
a per-character substitution). -/
def replaceZ : List Char → List Char
  | [] => []
  | c :: cs => (if c = 'Z' then ['+', '0', '0', ':', '0', '0'] else [c]) ++ replaceZ cs

/-- The `try` body of `to_iso8601`: `none` models any exception
(`ValueError` from parsing, `OverflowError` from conversion). -/
def normTs (s : String) : Option String :=
  (parseDT (replaceZ s.toList)).bind fun p => (toUTC p.1 p.2).map fmtDT

/-- `to_iso8601` (`main.py:59-68` = `lambda_function.py:59-68`): falsy input
gives `"-"`; a string is re-parsed and re-formatted, returned unchanged if
that fails; a truthy non-string hits `AttributeError` on `.replace`, which
the `except` turns into returning the input itself. -/
def to_iso8601 (ts : JValue) : JValue :=
  if truthy ts then
    match ts with
    | .str s =>
      match normTs s with
      | some o => .str o
      | none => .str s
    | v => v
  else .str "-"

/-! ### Environment and the richer payload builder (`main.py:71-172`) -/

/-- The process environment variables the code reads (`os.environ.get`). -/
structure Env where
  slackWebhookUrl : Option String
  slackChannel : Option String
  iconUrl : Option String

/-- The resolved per-event values computed by `build_slack_payload`
(`main.py:73-107, 153`), in source order; computing them is the only part of
the builder that can raise. -/
structure Resolved where
  event_name : JValue
  region : JValue
  event_time : JValue
  source_ip : JValue
  user_agent : JValue
  event_id : JValue
  user_str : JValue
  user_fields : List (String × JValue)
  user_type : JValue
  target : JValue
  doc_name : JValue
  reason : JValue
  session_id : JValue
  risk_flags : List String
  ua_trunc : JValue

/-- `any(x in user_str.lower() for x in ["admin", "prod", "power"])`
(ASCII lowering; the code's inputs are ASCII identifiers). -/
def hasPrivTerm (s : String) : Bool :=
  let l := (pyLower s).toList
  subOf ("admin".toList) l || subOf ("prod".toList) l || subOf ("power".toList) l

/-- Risk-flag classification (`main.py:100-107`).  `user_str.lower()` raises
on a non-string user label (only reached for `AssumedRole`);
`source_ip.startswith` raises on a non-string source IP (only reached when
the IP is not `"-"`/`"127.0.0.1"`, Python `and` short-circuit). -/
def riskFlags (user_type user_str source_ip : JValue) : Except String (List String) := do
  let f1 := if eqStr user_type "Root"
    then [":rotating_light: *ROOT ACCOUNT* :rotating_light:"] else []
  let f2 ←
    if eqStr user_type "AssumedRole" then
      match user_str with
      | .str s => pure (if hasPrivTerm s then [":warning: privileged role?"] else [])
      | _ => Except.error "AttributeError: no attribute lower"
    else pure []
  let f3 ←
    if !(eqStr source_ip "-") && !(eqStr source_ip "127.0.0.1") then
      match source_ip with
      | .str s =>
        pure (if !(pyStartsWith s "10.") && !(pyStartsWith s "192.168.") && !(pyStartsWith s "172.16.")
          then [":globe_with_meridians: external IP"] else [])
      | _ => Except.error "AttributeError: no attribute startswith"
    else pure []
  pure (f1 ++ f2 ++ f3)

/-- `user_agent[:60]` (`main.py:153`): slicing works on strings and lists,
raises `TypeError` otherwise. -/
def pySlice60 (v : JValue) : Except String JValue :=
  match v with
  | .str s => .ok (.str (String.mk (s.toList.take 60)))
  | .arr xs => .ok (.arr (xs.take 60))
  | _ => .error "TypeError: value is not subscriptable"

/-- The field-extraction phase of `build_slack_payload` (`main.py:73-107` and
the `user_agent[:60]` slice of line 153), in source order. -/
def extract_main (event : JValue) : Except String Resolved := do
  let detail ← getD event "detail" (.obj [])
  let event_name ← getD detail "eventName" (.str "UnknownEvent")
  let region ← getD detail "awsRegion" (.str "-")
  let event_time := to_iso8601 (← getD detail "eventTime" .null)
  let source_ip ← getD detail "sourceIPAddress" (.str "-")
  let user_agent ← getD detail "userAgent" (.str "-")
  let event_id ← pyOrE (getD detail "eventID" .null)
    (pyOrE (getD detail "eventId" .null) (pure (.str "-")))
  let us ← build_user_summary (← getD detail "userIdentity" (.obj []))
  let user_type := (lookup us.2 "UserType").getD (.str "-")
  let req := pyOr (← getD detail "requestParameters" (.obj [])) (.obj [])
  let resp := pyOr (← getD detail "responseElements" (.obj [])) (.obj [])
  let target ← pyOrE (getD req "target" .null)
    (pyOrE (getD req "Target" .null) (pure (.str "-")))
  let doc_name ← pyOrE (getD req "documentName" .null)
    (pyOrE (getD req "DocumentName" .null) (pure (.str "-")))
  let reason ← pyOrE (getD req "reason" .null)
    (pyOrE (getD req "Reason" .null) (pure (.str "-")))
  let session_id ← pyOrE (getD resp "sessionId" .null)
    (pyOrE (getD resp "SessionId" .null)
      (pyOrE (do let w ← getD resp "StartSessionResponse" (.obj []); getD w "SessionId" .null)
        (pure (.str "-"))))
  let risk_flags ← riskFlags user_type us.1 source_ip
  let ua_trunc ← pySlice60 user_agent
  pure ⟨event_name, region, event_time, source_ip, user_agent, event_id,
        us.1, us.2, user_type, target, doc_name, reason, session_id, risk_flags, ua_trunc⟩

/-- Best-effort CloudTrail console link (`main.py:110-112`). -/
def consoleLink (r : Resolved) : Option String :=
  if !(eqStr r.event_id "-") && !(eqStr r.region "-") then
    some ("https://" ++ pyStr r.region ++ ".console.aws.amazon.com/cloudtrail/home?region="
      ++ pyStr r.region ++ "#/events/" ++ pyStr r.event_id)
  else none

/-- The base fallback string (`main.py:115`). -/
def fallbackBase (r : Resolved) : String :=
  pyStr r.event_name ++ " " ++ pyStr r.user_str ++ " -> " ++ pyStr r.target
    ++ " (" ++ pyStr r.region ++ ") session=" ++ pyStr r.session_id
    ++ " doc=" ++ pyStr r.doc_name ++ " ip=" ++ pyStr r.source_ip

/-- `reason and reason != "-"` (`main.py:116` and `128`). -/
def reasonShown (reason : JValue) : Bool :=
  truthy reason && !(eqStr reason "-")

/-- The complete fallback text (`main.py:115-117`). -/
def fallbackText (r : Resolved) : String :=
  if reasonShown r.reason then fallbackBase r ++ " reason=" ++ pyStr r.reason
  else fallbackBase r

/-- Header text with its emoji (`main.py:97,119`). -/
def headerText (r : Resolved) : String :=
  (if eqStr r.event_name "StartSession" then ":large_blue_circle:"
   else ":information_source:") ++ " SSM " ++ pyStr r.event_name

/-- The markdown summary lines of the section block (`main.py:122-131`). -/
def summaryLines (r : Resolved) : List String :=
  ["*User:* " ++ pyStr r.user_str ++ "  |  *Acct:* "
      ++ pyStr ((lookup r.user_fields "Account").getD (.str "-")),
   "*Target:* `" ++ pyStr r.target ++ "`  |  *Session:* `" ++ pyStr r.session_id ++ "`",
   "*Doc:* `" ++ pyStr r.doc_name ++ "`  |  *Region:* " ++ pyStr r.region,
   "*IP:* " ++ pyStr r.source_ip]
  ++ (if reasonShown r.reason then ["*Reason:* _" ++ pyStr r.reason ++ "_"] else [])
  ++ (if r.risk_flags.isEmpty then [] else [joinNL r.risk_flags])

/-- Section-block text (`main.py:137`). -/
def sectionText (r : Resolved) : String :=
  joinNL (summaryLines r)

/-- Section block, with the icon accessory appended when `ICON_URL` is
configured non-empty (`main.py:135-140`). -/
def sectionBlock (icon_url : String) (r : Resolved) : JValue :=
  .obj ([("type", .str "section"),
         ("text", .obj [("type", .str "mrkdwn"), ("text", .str (sectionText r))])]
    ++ (if icon_url = "" then []
        else [("accessory", .obj [("type", .str "image"), ("image_url", .str icon_url),
                                  ("alt_text", .str "icon")])]))

/-- Context-footer elements (`main.py:150-156`). -/
def contextElems (r : Resolved) : List JValue :=
  [.obj [("type", .str "mrkdwn"), ("text", .str ("*Time:* " ++ pyStr r.event_time))],
   .obj [("type", .str "mrkdwn"), ("text", .str ("*UserType:* " ++ pyStr r.user_type))],
   .obj [("type", .str "mrkdwn"), ("text", .str ("UA: " ++ pyStr r.ua_trunc))]]
  ++ (match consoleLink r with
      | some l => [.obj [("type", .str "mrkdwn"), ("text", .str ("<" ++ l ++ "|CloudTrail Event>"))]]
      | none => [])

/-- The field list of the assembled payload dict
(`main.py:160-171`). -/
def mainFields (env : Env) (r : Resolved) : List (String × JValue) :=
  let icon_url := pyStrip (env.iconUrl.getD "")
  let slack_channel := pyStrip (env.slackChannel.getD "")
  ([("text", .str (fallbackText r)),
         ("blocks", .arr
           ([.obj [("type", .str "header"),
                   ("text", .obj [("type", .str "plain_text"), ("text", .str (headerText r))])],
             sectionBlock icon_url r]
            ++ [.obj [("type", .str "divider")]]
            ++ [.obj [("type", .str "context"), ("elements", .arr (contextElems r))]])),
         ("unfurl_links", .bool false),
         ("unfurl_media", .bool false),
         ("username", .str "SSM Alerts"),
         ("icon_emoji", .str ":lock:")]
    ++ (if slack_channel = "" then [] else [("channel", .str slack_channel)]))

/-- The pure payload-assembly phase of `build_slack_payload`
(`main.py:96-172` minus the extraction modelled by `extract_main`). -/
def assemble_main (env : Env) (r : Resolved) : JValue :=
  .obj (mainFields env r)

/-- `build_slack_payload` of `main.py:71-172`: resolve the event's fields,
then assemble the Block Kit payload. -/
def build_slack_payload (env : Env) (event : JValue) : Except String JValue := do
  let r ← extract_main event
  pure (assemble_main env r)

/-! ### The simpler payload builder (`lambda_function.py:71-157`) -/

/-- The resolved per-event values of `lambda_function.py`'s
`build_slack_payload` (`lambda_function.py:72-92`), in source order. -/
structure LfResolved where
  event_name : JValue
  region : JValue
  event_time : JValue
  source_ip : JValue
  user_agent : JValue
  user_str : JValue
  user_fields : List (String × JValue)
  target : JValue
  reason : JValue
  session_id : JValue

/-- The field-extraction phase of `lambda_function.py:72-92`. -/
def extract_lf (event : JValue) : Except String LfResolved := do
  let detail ← getD event "detail" (.obj [])
  let event_name ← getD detail "eventName" (.str "UnknownEvent")
  let region ← getD detail "awsRegion" (.str "-")
  let event_time := to_iso8601 (← getD detail "eventTime" .null)
  let source_ip ← getD detail "sourceIPAddress" (.str "-")
  let user_agent ← getD detail "userAgent" (.str "-")
  let us ← build_user_summary (← getD detail "userIdentity" (.obj []))
  let req := pyOr (← getD detail "requestParameters" (.obj [])) (.obj [])
  let resp := pyOr (← getD detail "responseElements" (.obj [])) (.obj [])
  let target ← pyOrE (getD req "target" .null)
    (pyOrE (getD req "Target" .null) (pure (.str "-")))
  let reason ← pyOrE (getD req "reason" .null)
    (pyOrE (getD req "Reason" .null) (pure (.str "-")))
  let session_id ← pyOrE (getD resp "sessionId" .null)
    (pyOrE (getD resp "SessionId" .null)
      (pyOrE (do let w ← getD resp "StartSessionResponse" (.obj []); getD w "SessionId" .null)
        (pure (.str "-"))))
  pure ⟨event_name, region, event_time, source_ip, user_agent, us.1, us.2,
        target, reason, session_id⟩

/-- Emoji choice of `lambda_function.py:94`. -/
def lfEmoji (event_name : JValue) : String :=
  if eqStr event_name "StartSession" then ":large_blue_circle:"
  else if eqStr event_name "TerminateSession" then ":white_check_mark:"
  else ":information_source:"

/-- The plain-text fallback lines (`lambda_function.py:98-109`). -/
def lfTextLines (r : LfResolved) : List String :=
  ["SSM " ++ pyStr r.event_name,
   "User: " ++ pyStr r.user_str,
   "Account: " ++ pyStr ((lookup r.user_fields "Account").getD (.str "-")),
   "Target: " ++ pyStr r.target,
   "SessionId: " ++ pyStr r.session_id,
   "Region: " ++ pyStr r.region,
   "Source IP: " ++ pyStr r.source_ip,
   "Time: " ++ pyStr r.event_time]
  ++ (if reasonShown r.reason then ["Reason: " ++ pyStr r.reason] else [])

/-- The field list of the assembled payload dict
(`lambda_function.py:144-155`). -/
def lfFields (env : Env) (r : LfResolved) : List (String × JValue) :=
  let title := lfEmoji r.event_name ++ " SSM " ++ pyStr r.event_name
  let slack_channel := pyStrip (env.slackChannel.getD "")
  ([("text", .str (joinNL (lfTextLines r))),
         ("blocks", .arr
           ([.obj [("type", .str "header"),
                   ("text", .obj [("type", .str "plain_text"), ("text", .str title)])],
             .obj [("type", .str "section"),
                   ("fields", .arr
                     [.obj [("type", .str "mrkdwn"), ("text", .str ("*User*\n" ++ pyStr r.user_str))],
                      .obj [("type", .str "mrkdwn"), ("text", .str ("*Account*\n"
                        ++ pyStr ((lookup r.user_fields "Account").getD (.str "-"))))],
                      .obj [("type", .str "mrkdwn"), ("text", .str ("*Target*\n" ++ pyStr r.target))],
                      .obj [("type", .str "mrkdwn"), ("text", .str ("*Session ID*\n" ++ pyStr r.session_id))],
                      .obj [("type", .str "mrkdwn"), ("text", .str ("*Region*\n" ++ pyStr r.region))],
                      .obj [("type", .str "mrkdwn"), ("text", .str ("*Source IP*\n" ++ pyStr r.source_ip))]])]]
            ++ (if reasonShown r.reason then
                  [.obj [("type", .str "section"),
                         ("text", .obj [("type", .str "mrkdwn"),
                                        ("text", .str ("*Reason*\n" ++ pyStr r.reason))])]]
                else [])
            ++ [.obj [("type", .str "context"), ("elements", .arr
                  [.obj [("type", .str "mrkdwn"), ("text", .str ("Time: " ++ pyStr r.event_time))],
                   .obj [("type", .str "mrkdwn"), ("text", .str ("UserAgent: " ++ pyStr r.user_agent))]])]])),
         ("unfurl_links", .bool false),
         ("unfurl_media", .bool false),
         ("username", .str "SSM Alerts"),
         ("icon_emoji", .str ":lock:")]
    ++ (if slack_channel = "" then [] else [("channel", .str slack_channel)]))

/-- The pure payload-assembly phase of `lambda_function.py:94-157`. -/
def assemble_lf (env : Env) (r : LfResolved) : JValue :=
  .obj (lfFields env r)

/-- `build_slack_payload` of `lambda_function.py:71-157`. -/
def lf_build_slack_payload (env : Env) (event : JValue) : Except String JValue := do
  let r ← extract_lf event
  pure (assemble_lf env r)

/-! ### Delivery client (`send_to_slack`, `main.py:175-196` =
`lambda_function.py:160-181`) -/

/-- Escape for `json.dumps` (quotes and backslashes; control-character
escapes are not modelled). -/
def jsonEscape : List Char → List Char
  | [] => []
  | c :: cs =>
    (if c = '\"' then ['\\', '\"'] else if c = '\\' then ['\\', '\\'] else [c]) ++ jsonEscape cs

mutual

/-- `json.dumps` with its default separators. -/
def dumps : JValue → String
  | .null => "null"
  | .bool b => if b then "true" else "false"
  | .num n => toString n
  | .str s => "\"" ++ String.mk (jsonEscape s.toList) ++ "\""
  | .arr xs => "[" ++ dumpsList xs ++ "]"
  | .obj fs => "\x7b" ++ dumpsFields fs ++ "\x7d"

def dumpsList : List JValue → String
  | [] => ""
  | [x] => dumps x
  | x :: xs => dumps x ++ ", " ++ dumpsList xs

def dumpsFields : List (String × JValue) → String
  | [] => ""
  | [(k, v)] => "\"" ++ String.mk (jsonEscape k.toList) ++ "\": " ++ dumps v
  | (k, v) :: fs =>
    "\"" ++ String.mk (jsonEscape k.toList) ++ "\": " ++ dumps v ++ ", " ++ dumpsFields fs

end

/-- An outbound HTTP request as built by `send_to_slack`
(`main.py:180-186`). -/
structure HttpRequest where
  url : String
  contentType : String
  httpMethod : String
  body : String
  timeoutSecs : Nat
deriving DecidableEq, Repr

/-- What the network does with a request: a response (any status the
`urlopen` call treats as success), an `HTTPError` (non-success status, with
its readable body), or a `URLError` (DNS / connection / TLS / timeout). -/
inductive HttpOutcome where
  | resp (status : Nat) (body : String)
  | httpError (code : Nat) (body : String)
  | urlError (msg : String)

/-- The request `send_to_slack` builds (`main.py:180-186`): JSON body, JSON
content type, POST, 10-second timeout. -/
def mkRequest (webhook : String) (payload : JValue) : HttpRequest :=
  ⟨webhook, "application/json; charset=utf-8", "POST", dumps payload, 10⟩

/-- `send_to_slack` (`main.py:175-196`): raises `RuntimeError` when
`SLACK_WEBHOOK_URL` is unset or empty; otherwise performs exactly one POST
(the returned list is the trace of attempted requests) and maps the
outcome: response → its status/body, `HTTPError` → its code and body,
`URLError` → sentinel 599 with the error text. -/
def send_to_slack (env : Env) (transport : HttpRequest → HttpOutcome)
    (payload : JValue) : List HttpRequest × Except String (Nat × String) :=
  match env.slackWebhookUrl with
  | none => ([], .error "SLACK_WEBHOOK_URL is not set")
  | some w =>
    if w = "" then ([], .error "SLACK_WEBHOOK_URL is not set")
    else
      let req := mkRequest w payload
      ([req],
       .ok (match transport req with
            | .resp s b => (s, b)
            | .httpError c b => (c, b)
            | .urlError m => (599, m)))

/-! ### Concrete fixtures used by counterexamples and witnesses -/

/-- An environment with nothing configured. -/
def env0 : Env := { slackWebhookUrl := none, slackChannel := none, iconUrl := none }

/-- An environment with a channel override configured. -/
def envChan : Env := { slackWebhookUrl := none, slackChannel := some "#alerts", iconUrl := none }

/-- Is `"channel"` a key of the payload dict? -/
def hasChannelKey (p : JValue) : Bool :=
  match p with
  | .obj fs => (lookup fs "channel").isSome
  | _ => false

/-! ### C8 -/

/-- C8: the timestamp normalizer `to_iso8601` returns the placeholder `"-"`
on absent (`None`) or empty input, returns an unparseable string such as
`"not-a-date"` unchanged, and maps `"2024-01-01T12:34:56Z"` to the fixed UTC
display format `"2024-01-01 12:34:56Z"`. -/
theorem C8_to_iso8601_policy :
    to_iso8601 .null = .str "-" ∧
    to_iso8601 (.str "") = .str "-" ∧
    to_iso8601 (.str "not-a-date") = .str "not-a-date" ∧
    to_iso8601 (.str "2024-01-01T12:34:56Z") = .str "2024-01-01 12:34:56Z" :=
  ⟨rfl, rfl, rfl, rfl⟩

/-! ### C5 -/

/-- C5: `send_to_slack` fails with the configuration error and performs no
network request when `SLACK_WEBHOOK_URL` is unset or empty; otherwise it
performs exactly one POST (the request trace is a singleton) and returns the
endpoint's status code and body verbatim on a non-success `HTTPError`, the
response's status and body on success, and the sentinel `599` with the error
text on a network-level `URLError`. -/
theorem C5_send_to_slack_contract :
    (∀ env transport payload,
        env.slackWebhookUrl = none ∨ env.slackWebhookUrl = some "" →
        send_to_slack env transport payload = ([], .error "SLACK_WEBHOOK_URL is not set")) ∧
    (∀ env w transport payload, env.slackWebhookUrl = some w → w ≠ "" →
        (send_to_slack env transport payload).1 = [mkRequest w payload] ∧
        (∀ c b, transport (mkRequest w payload) = .httpError c b →
          (send_to_slack env transport payload).2 = .ok (c, b)) ∧
        (∀ m, transport (mkRequest w payload) = .urlError m →
          (send_to_slack env transport payload).2 = .ok (599, m)) ∧
        (∀ st b, transport (mkRequest w payload) = .resp st b →
          (send_to_slack env transport payload).2 = .ok (st, b))) := by
  constructor
  · intro env transport payload h
    rcases h with h | h <;> simp [send_to_slack, h]
  · intro env w transport payload hw hne
    refine ⟨by simp [send_to_slack, hw, hne], ?_, ?_, ?_⟩
    · intro c b h
      simp [send_to_slack, hw, hne, h]
    · intro m h
      simp [send_to_slack, hw, hne, h]
    · intro st b h
      simp [send_to_slack, hw, hne, h]

/-- A transport stub whose endpoint rejects every request with a 404. -/
def reject404 : HttpRequest → HttpOutcome := fun _ => .httpError 404 "no_service"

/-- An environment with a webhook URL configured. -/
def envHook : Env :=
  { slackWebhookUrl := some "https://hooks.example/T/B", slackChannel := none, iconUrl := none }

/-- Witness for C5 at a concrete environment, transport and payload. -/
theorem C5_witness :
    (send_to_slack envHook reject404 (.obj [])).1
        = [mkRequest "https://hooks.example/T/B" (.obj [])] ∧
    (send_to_slack envHook reject404 (.obj [])).2 = .ok (404, "no_service") := by
  have h := C5_send_to_slack_contract.2 envHook "https://hooks.example/T/B" reject404 (.obj [])
    rfl (by decide)
  exact ⟨h.1, h.2.1 404 "no_service" rfl⟩

/-! ### C4 -/

/-- C4 counterexample: `build_slack_payload`'s output is not independent of
the `SLACK_CHANNEL` configuration — on the same event, an empty configuration
yields a payload without a `"channel"` key while a configured channel
override yields one with it. -/
theorem C4_claim_counterexample :
    (build_slack_payload env0 (.obj [])).map hasChannelKey = .ok false ∧
    (build_slack_payload envChan (.obj [])).map hasChannelKey = .ok true :=
  ⟨rfl, rfl⟩

/-- Auxiliary for C4: the assembly phase depends on the environment only
through the stripped `SLACK_CHANNEL` and `ICON_URL` values. -/
theorem assemble_main_env_congr (env1 env2 : Env) (r : Resolved)
    (hch : pyStrip (env1.slackChannel.getD "") = pyStrip (env2.slackChannel.getD ""))
    (hic : pyStrip (env1.iconUrl.getD "") = pyStrip (env2.iconUrl.getD "")) :
    assemble_main env1 r = assemble_main env2 r := by
  unfold assemble_main mainFields
  rw [hch, hic]

/-- C4 (amended): `build_slack_payload` is a pure function of the audit event
and of the stripped `SLACK_CHANNEL` / `ICON_URL` configuration values: any
two environments agreeing on those two values (after stripping) produce
identical payloads on every event, whatever else (e.g. the webhook URL)
differs. -/
theorem C4_payload_depends_only_on_channel_icon (env1 env2 : Env) (e : JValue)
    (hch : pyStrip (env1.slackChannel.getD "") = pyStrip (env2.slackChannel.getD ""))
    (hic : pyStrip (env1.iconUrl.getD "") = pyStrip (env2.iconUrl.getD "")) :
    build_slack_payload env1 e = build_slack_payload env2 e := by
  unfold build_slack_payload
  cases h : extract_main e
  · simp [Except.bind, h]
  · simp [Except.bind, h, assemble_main_env_congr env1 env2 _ hch hic]

/-- Witness for C4 at two concretely different environments that agree on
the stripped channel and icon values. -/
theorem C4_witness :
    build_slack_payload
        { slackWebhookUrl := some "https://x", slackChannel := some " #a ", iconUrl := some "i" }
        (.obj [])
      = build_slack_payload
        { slackWebhookUrl := none, slackChannel := some "#a", iconUrl := some " i" }
        (.obj []) :=
  C4_payload_depends_only_on_channel_icon _ _ (.obj []) rfl rfl

/-! ### C2 -/

/-- If a Python `or`-chain produced an empty string, it came from the right
operand (a truthy left operand cannot be the empty string). -/
theorem pyOr_eq_empty (a b : JValue) (h : pyOr a b = .str "") : b = .str "" := by
  unfold pyOr at h
  split at h
  · next ht =>
    rw [h] at ht
    exact absurd ht (by decide)
  · exact h

/-- C2 counterexample: on a non-dict user identity, `build_user_summary`
returns label `"unknown"` with an *empty* auxiliary mapping — it contains
neither an `Account` nor a `Principal` key, contradicting the claim's
"every user-identity input (... including non-conforming input)". -/
theorem C2_claim_counterexample :
    (build_user_summary (.str "not-a-dict")).map
        (fun r => (r.1, lookup r.2 "Account", lookup r.2 "Principal"))
      = .ok (.str "unknown", none, none) := rfl

/-- Inversion for `Except` bind: a bound computation returned `ok` exactly
when both stages did. -/
theorem bindE_ok {a b : Type} (x : Except String a) (f : a → Except String b) (v : b) :
    (x >>= f) = .ok v ↔ ∃ u, x = .ok u ∧ f u = .ok v := by
  cases x <;> simp [Bind.bind, Except.bind]

/-- `pure` in `Except` is `ok`. -/
theorem pureE_ok {a : Type} (x v : a) :
    (pure x : Except String a) = .ok v ↔ x = v := by
  simp [pure, Except.pure]

/-- C2 (amended): whenever `build_user_summary` returns, a dict input yields
an auxiliary mapping containing `Account` and `Principal` (the field's value
when truthy, the placeholder `"-"` otherwise), and a label that can only be
empty when the identity is an `AssumedRole` whose ARN string contains `"/"`
with an empty final path segment; a non-dict input yields label `"unknown"`
and an empty auxiliary mapping. -/
theorem C2_summary_invariant (u lbl : JValue) (ex : List (String × JValue))
    (h : build_user_summary u = .ok (lbl, ex)) :
    (∀ fs, u = .obj fs →
      lookup ex "Account" = some (pyOr ((lookup fs "accountId").getD .null) (.str "-")) ∧
      lookup ex "Principal" = some (pyOr ((lookup fs "principalId").getD .null) (.str "-")) ∧
      (lbl = .str "" →
        ∃ s, (lookup fs "type").getD .null = .str "AssumedRole" ∧
          pyOr ((lookup fs "arn").getD .null) (.str "") = .str s ∧
          s.toList.contains '/' = true ∧
          (splitCh '/' s.toList).getLastD [] = [])) ∧
    ((∀ fs, u ≠ .obj fs) → lbl = .str "unknown" ∧ ex = []) := by
  constructor
  · intro fs hfs
    subst hfs
    simp only [build_user_summary] at h
    split at h
    · -- IAMUser
      injection h with h2
      rw [Prod.mk.injEq] at h2
      obtain ⟨rfl, rfl⟩ := h2
      refine ⟨by simp [lookup], by simp [lookup], ?_⟩
      intro hempty
      have h3 := pyOr_eq_empty _ _ (pyOr_eq_empty _ _ hempty)
      simp at h3
    · split at h
      · -- AssumedRole
        next hne hty =>
        rw [eqStr_iff] at hty
        split at h
        · next s harn =>
          by_cases hsl : s.toList.contains '/' = true
          · rw [if_pos hsl] at h
            rw [bindE_ok] at h
            obtain ⟨sn, hsn, h⟩ := h
            rw [pureE_ok] at hsn
            subst hsn
            rw [bindE_ok] at h
            obtain ⟨si, hsc, h⟩ := h
            rw [bindE_ok] at h
            obtain ⟨ir, hir, h⟩ := h
            injection h with h2
            rw [Prod.mk.injEq] at h2
            obtain ⟨rfl, rfl⟩ := h2
            refine ⟨by simp [lookup], by simp [lookup], ?_⟩
            intro hempty
            refine ⟨s, hty, harn, hsl, ?_⟩
            have hmk : String.mk ((splitCh '/' s.toList).getLastD []) = "" := by
              injection hempty
            rw [String.ext_iff] at hmk
            simpa [List.getLastD_eq_getLast?] using hmk
          · rw [if_neg hsl] at h
            rw [bindE_ok] at h
            obtain ⟨sn, hsn, h⟩ := h
            rw [pureE_ok] at hsn
            subst hsn
            rw [bindE_ok] at h
            obtain ⟨si, hsc, h⟩ := h
            rw [bindE_ok] at h
            obtain ⟨ir, hir, h⟩ := h
            injection h with h2
            rw [Prod.mk.injEq] at h2
            obtain ⟨rfl, rfl⟩ := h2
            refine ⟨by simp [lookup], by simp [lookup], ?_⟩
            intro hempty
            have h3 := pyOr_eq_empty _ _ (pyOr_eq_empty _ _ hempty)
            simp at h3
        · exact absurd h (by simp [Bind.bind, Except.bind])
      · split at h
        · -- Root
          injection h with h2
          rw [Prod.mk.injEq] at h2
          obtain ⟨rfl, rfl⟩ := h2
          refine ⟨by simp [lookup], by simp [lookup], ?_⟩
          intro hempty
          injection hempty with hx
          exact absurd hx (by decide)
        · -- other / missing discriminant
          injection h with h2
          rw [Prod.mk.injEq] at h2
          obtain ⟨rfl, rfl⟩ := h2
          refine ⟨by simp [lookup], by simp [lookup], ?_⟩
          intro hempty
          have h4 := pyOr_eq_empty _ _ (pyOr_eq_empty _ _ (pyOr_eq_empty _ _ hempty))
          simp at h4
  · intro hne
    cases u with
    | obj fs => exact absurd rfl (hne fs)
    | null => cases h; exact ⟨rfl, rfl⟩
    | bool b => cases h; exact ⟨rfl, rfl⟩
    | num n => cases h; exact ⟨rfl, rfl⟩
    | str s => cases h; exact ⟨rfl, rfl⟩
    | arr xs => cases h; exact ⟨rfl, rfl⟩

/-- Witness for C2 at a concrete `Root` identity. -/
theorem C2_witness :
    lookup [("Account", JValue.str "-"), ("Principal", JValue.str "-"),
        ("UserType", JValue.str "Root")] "Account" = some (.str "-") :=
  (((C2_summary_invariant (.obj [("type", .str "Root")]) (.str "Root")
      [("Account", .str "-"), ("Principal", .str "-"), ("UserType", .str "Root")]
      rfl).1 [("type", .str "Root")] rfl)).1

/-! ### C6 -/

/-- `splitCh` never returns the empty list (Python `split` always yields at
least one segment). -/
theorem splitCh_ne_nil (c : Char) (cs : List Char) : splitCh c cs ≠ [] := by
  cases cs with
  | nil => simp [splitCh]
  | cons x xs =>
    simp only [splitCh]
    split
    · simp
    · split <;> simp

/-- Unfolding `splitCh` on a cons once the tail's split is known. -/
theorem splitCh_cons (c x : Char) (xs h1 : List Char) (t : List (List Char))
    (hsp : splitCh c xs = h1 :: t) :
    splitCh c (x :: xs) = if x = c then [] :: h1 :: t else (x :: h1) :: t := by
  simp [splitCh, hsp]

/-- Splitting a list without the separator yields the single segment. -/
theorem splitCh_no_sep (c : Char) (cs : List Char) (h : cs.contains c = false) :
    splitCh c cs = [cs] := by
  induction cs with
  | nil => rfl
  | cons x xs ih =>
    simp only [List.contains_cons, Bool.or_eq_false_iff, beq_eq_false_iff_ne, ne_eq] at h
    simp only [splitCh, ih h.2]
    rw [if_neg (fun hxc => h.1 hxc.symm)]

/-- Splitting a list containing the separator yields at least two segments. -/
theorem splitCh_len2 (c : Char) (cs : List Char) (h : cs.contains c = true) :
    2 ≤ (splitCh c cs).length := by
  induction cs with
  | nil => simp at h
  | cons x xs ih =>
    rcases hsp : splitCh c xs with _ | ⟨h1, t⟩
    · exact absurd hsp (splitCh_ne_nil c xs)
    · rw [splitCh_cons c x xs h1 t hsp]
      by_cases hx : x = c
      · rw [if_pos hx]
        simp
      · rw [if_neg hx]
        simp only [List.contains_cons, Bool.or_eq_true] at h
        rcases h with h | h
        · exact absurd (eq_of_beq h).symm hx
        · have h2 := ih h
          rw [hsp] at h2
          simp only [List.length_cons] at h2 ⊢
          omega

/-- The default argument of `getLastD` is irrelevant on a non-empty list. -/
theorem getLastD_irrel (t : List (List Char)) (d1 d2 : List Char) (h : t ≠ []) :
    t.getLastD d1 = t.getLastD d2 := by
  cases t with
  | nil => exact absurd rfl h
  | cons y ys => rw [List.getLastD_cons, List.getLastD_cons]

/-- The final segment of `splitCh` is exactly the suffix after the last
separator occurrence: the input decomposes as `pre ++ c :: lastSegment` with
the last segment free of the separator. -/
theorem splitCh_last_decomp (c : Char) (cs : List Char) (h : cs.contains c = true) :
    ∃ pre, cs = pre ++ c :: ((splitCh c cs).getLastD []) ∧
      ((splitCh c cs).getLastD []).contains c = false := by
  induction cs with
  | nil => simp at h
  | cons x xs ih =>
    rcases hsp : splitCh c xs with _ | ⟨h1, t⟩
    · exact absurd hsp (splitCh_ne_nil c xs)
    · rw [splitCh_cons c x xs h1 t hsp]
      by_cases hx : x = c
      · rw [if_pos hx]
        rw [List.getLastD_cons]
        by_cases hxs : xs.contains c = true
        · obtain ⟨pre, hpre, hlast⟩ := ih hxs
          rw [hsp] at hpre hlast
          refine ⟨x :: pre, ?_, hlast⟩
          rw [List.cons_append]
          rw [hx]
          exact congrArg (c :: ·) hpre
        · have hns := splitCh_no_sep c xs (by simpa using hxs)
          rw [hns] at hsp
          injection hsp with hh ht2
          subst hh
          subst ht2
          rw [List.getLastD_cons, List.getLastD_nil]
          refine ⟨[], ?_, by simpa using hxs⟩
          rw [hx]
          rfl
      · rw [if_neg hx]
        have hxs : xs.contains c = true := by
          simp only [List.contains_cons, Bool.or_eq_true] at h
          rcases h with h | h
          · exact absurd (eq_of_beq h).symm hx
          · exact h
        obtain ⟨pre, hpre, hlast⟩ := ih hxs
        rw [hsp] at hpre hlast
        have ht : t ≠ [] := by
          have h2 := splitCh_len2 c xs hxs
          rw [hsp] at h2
          simp only [List.length_cons] at h2
          intro hteq
          subst hteq
          simp at h2
        rw [List.getLastD_cons]
        rw [List.getLastD_cons] at hpre hlast
        rw [getLastD_irrel t (x :: h1) h1 ht]
        refine ⟨x :: pre, ?_, hlast⟩
        rw [List.cons_append]
        exact congrArg (x :: ·) hpre

/-- The nested `sessionContext.sessionIssuer.arn` value of a user-identity
dict, with the `.get(..., {})` defaults of `main.py:42-46`; `null` stands for
the unreachable non-dict cases excluded by C6's hypotheses. -/
def issuerValue (fs : List (String × JValue)) : JValue :=
  match (lookup fs "sessionContext").getD (.obj []) with
  | .obj g =>
    match (lookup g "sessionIssuer").getD (.obj []) with
    | .obj g2 => (lookup g2 "arn").getD .null
    | _ => .null
  | _ => .null

/-- C6: for an `AssumedRole` identity (ARN a string or absent/falsy, session
context chain dict-shaped where present), `build_user_summary` labels it with
the substring after the last `/` of the ARN when the ARN contains `/`
(witnessed by the `pre ++ sep :: lastSegment` decomposition), and otherwise
falls back through `userName`, then `principalId`, then `"assumed-role"`;
the auxiliary mapping binds `RoleIssuer` to the nested
`sessionContext.sessionIssuer.arn` value, defaulting to `"-"`. -/
theorem C6_assumed_role_label_issuer (fs : List (String × JValue))
    (htype : (lookup fs "type").getD .null = .str "AssumedRole")
    (harn : ∀ v, lookup fs "arn" = some v → truthy v = true → ∃ s, v = .str s)
    (hsc : ∀ v, lookup fs "sessionContext" = some v → ∃ g, v = .obj g)
    (hsi : ∀ g v, lookup fs "sessionContext" = some (.obj g) →
      lookup g "sessionIssuer" = some v → ∃ g2, v = .obj g2) :
    ∃ s ex,
      pyOr ((lookup fs "arn").getD .null) (.str "") = .str s ∧
      build_user_summary (.obj fs) =
        .ok ((if s.toList.contains '/' then
                .str (String.mk ((splitCh '/' s.toList).getLastD []))
              else
                pyOr ((lookup fs "userName").getD .null)
                  (pyOr ((lookup fs "principalId").getD .null) (.str "assumed-role"))), ex) ∧
      lookup ex "RoleIssuer" = some (pyOr (issuerValue fs) (.str "-")) ∧
      (s.toList.contains '/' = true →
        ∃ pre, s.toList = pre ++ '/' :: ((splitCh '/' s.toList).getLastD []) ∧
          ((splitCh '/' s.toList).getLastD []).contains '/' = false) := by
  have hstr : ∃ s, pyOr ((lookup fs "arn").getD .null) (.str "") = .str s := by
    cases hv : lookup fs "arn" with
    | none => exact ⟨"", rfl⟩
    | some v =>
      by_cases htr : truthy v = true
      · obtain ⟨s, rfl⟩ := harn v hv htr
        exact ⟨s, by simp [pyOr, htr]⟩
      · exact ⟨"", by simp [pyOr, Option.getD, htr]⟩
  obtain ⟨s, hs⟩ := hstr
  have hsio : ∃ g2, getD ((lookup fs "sessionContext").getD (.obj []))
      "sessionIssuer" (.obj []) = .ok (.obj g2) ∧ issuerValue fs = (lookup g2 "arn").getD .null := by
    cases hv : lookup fs "sessionContext" with
    | none => exact ⟨[], by simp [getD, lookup], by simp [issuerValue, hv, lookup]⟩
    | some v =>
      obtain ⟨g, rfl⟩ := hsc v hv
      cases hw : lookup g "sessionIssuer" with
      | none => exact ⟨[], by simp [getD, hw], by simp [issuerValue, hv, hw]⟩
      | some w =>
        obtain ⟨g2, rfl⟩ := hsi g w hv hw
        exact ⟨g2, by simp [getD, hw], by simp [issuerValue, hv, hw]⟩
  obtain ⟨g2, hg2, hiv⟩ := hsio
  refine ⟨s, [("Account", pyOr ((lookup fs "accountId").getD .null) (.str "-")),
              ("Principal", pyOr ((lookup fs "principalId").getD .null) (.str "-")),
              ("UserType", .str "AssumedRole"),
              ("RoleIssuer", pyOr ((lookup g2 "arn").getD .null) (.str "-"))],
          hs, ?_, ?_, ?_⟩
  · simp only [build_user_summary, htype]
    rw [show eqStr (.str "AssumedRole") "IAMUser" = false from rfl]
    rw [show eqStr (.str "AssumedRole") "AssumedRole" = true from rfl]
    rw [hs, hg2]
    by_cases hsl : s.toList.contains '/' = true
    · simp [hsl, Bind.bind, Except.bind, getD, pure, Except.pure]
      split <;> simp_all
    · simp only [Bool.not_eq_true] at hsl
      simp [hsl, Bind.bind, Except.bind, getD, pure, Except.pure]
      split <;> simp_all
  · simp [lookup, hiv]
  · intro hsl
    exact splitCh_last_decomp '/' s.toList hsl

/-- Witness for C6 at a concrete `AssumedRole` identity with a slash ARN. -/
theorem C6_witness :
    ∃ s ex,
      pyOr ((lookup [("type", JValue.str "AssumedRole"),
          ("arn", JValue.str "arn:aws:sts::1:assumed-role/Admin/carol")] "arn").getD .null)
          (.str "") = .str s ∧
      build_user_summary (.obj [("type", .str "AssumedRole"),
          ("arn", .str "arn:aws:sts::1:assumed-role/Admin/carol")]) =
        .ok ((if s.toList.contains '/' then
                .str (String.mk ((splitCh '/' s.toList).getLastD []))
              else
                pyOr ((lookup [("type", JValue.str "AssumedRole"),
                    ("arn", JValue.str "arn:aws:sts::1:assumed-role/Admin/carol")]
                    "userName").getD .null)
                  (pyOr ((lookup [("type", JValue.str "AssumedRole"),
                      ("arn", JValue.str "arn:aws:sts::1:assumed-role/Admin/carol")]
                      "principalId").getD .null) (.str "assumed-role"))), ex) ∧
      lookup ex "RoleIssuer" = some (pyOr (issuerValue [("type", JValue.str "AssumedRole"),
          ("arn", JValue.str "arn:aws:sts::1:assumed-role/Admin/carol")]) (.str "-")) ∧
      (s.toList.contains '/' = true →
        ∃ pre, s.toList = pre ++ '/' :: ((splitCh '/' s.toList).getLastD []) ∧
          ((splitCh '/' s.toList).getLastD []).contains '/' = false) :=
  C6_assumed_role_label_issuer
    [("type", .str "AssumedRole"), ("arn", .str "arn:aws:sts::1:assumed-role/Admin/carol")]
    rfl
    (fun v hv _ => by
      refine ⟨"arn:aws:sts::1:assumed-role/Admin/carol", ?_⟩
      simp [lookup] at hv
      exact hv.symm)
    (fun v hv => by simp [lookup] at hv)
    (fun g v hv _ => by simp [lookup] at hv)

/-! ### C7 -/

/-- `eqStr` on a string value is plain string comparison. -/
theorem eqStr_str (t k : String) : eqStr (.str t) k = (t == k) := rfl

/-- The privileged-label test of `main.py:103` as a predicate on the label
value: a string containing "admin"/"prod"/"power" case-insensitively. -/
def privLabel (us : JValue) : Bool :=
  match us with
  | .str s => hasPrivTerm s
  | _ => false

/-- The external-IP test of `main.py:105`: not the placeholder, not the
loopback literal `"127.0.0.1"`, and no RFC1918-style prefix `10.` /
`192.168.` / `172.16.`. -/
def externalIp (s : String) : Bool :=
  !(s == "-") && !(s == "127.0.0.1") && !(pyStartsWith s "10.")
    && !(pyStartsWith s "192.168.") && !(pyStartsWith s "172.16.")

/-- C7: the risk classification produces exactly the three flags in order —
the root flag whenever the resolved actor-type is `Root` (whatever the other
fields), the privileged-role flag when the actor-type is `AssumedRole` and
the label contains "admin"/"prod"/"power" case-insensitively, and the
external-IP flag exactly when the source IP passes `externalIp`; in
particular `8.8.8.8` is flagged external while `10.0.0.5`, `192.168.1.1`,
`172.16.0.1` and `127.0.0.1` are not. -/
theorem C7_risk_flag_classification :
    (∀ ut us ip ipS, ip = .str ipS →
      (eqStr ut "AssumedRole" = true → ∃ s, us = .str s) →
      riskFlags ut us ip = .ok (
        (if eqStr ut "Root" then [":rotating_light: *ROOT ACCOUNT* :rotating_light:"] else [])
        ++ (if eqStr ut "AssumedRole" && privLabel us then [":warning: privileged role?"] else [])
        ++ (if externalIp ipS then [":globe_with_meridians: external IP"] else []))) ∧
    riskFlags (.str "-") (.str "u") (.str "8.8.8.8") = .ok [":globe_with_meridians: external IP"] ∧
    riskFlags (.str "-") (.str "u") (.str "10.0.0.5") = .ok [] ∧
    riskFlags (.str "-") (.str "u") (.str "192.168.1.1") = .ok [] ∧
    riskFlags (.str "-") (.str "u") (.str "172.16.0.1") = .ok [] ∧
    riskFlags (.str "-") (.str "u") (.str "127.0.0.1") = .ok [] := by
  refine ⟨?_, rfl, rfl, rfl, rfl, rfl⟩
  intro ut us ip ipS hip hus
  subst hip
  by_cases hAR : eqStr ut "AssumedRole" = true
  · obtain ⟨s, rfl⟩ := hus hAR
    by_cases hd : (ipS == "-") = true
    · simp [riskFlags, hAR, hd, eqStr_str, privLabel, externalIp,
        Bind.bind, Except.bind, pure, Except.pure]
    · by_cases h127 : (ipS == "127.0.0.1") = true
      · simp [riskFlags, hAR, hd, h127, eqStr_str, privLabel, externalIp,
          Bind.bind, Except.bind, pure, Except.pure]
      · simp [riskFlags, hAR, hd, h127, eqStr_str, privLabel, externalIp,
          Bind.bind, Except.bind, pure, Except.pure]
  · by_cases hd : (ipS == "-") = true
    · simp [riskFlags, hAR, hd, eqStr_str, privLabel, externalIp,
        Bind.bind, Except.bind, pure, Except.pure]
    · by_cases h127 : (ipS == "127.0.0.1") = true
      · simp [riskFlags, hAR, hd, h127, eqStr_str, privLabel, externalIp,
          Bind.bind, Except.bind, pure, Except.pure]
      · simp [riskFlags, hAR, hd, h127, eqStr_str, privLabel, externalIp,
          Bind.bind, Except.bind, pure, Except.pure]

/-- Witness for C7 at a concrete privileged assumed role on an external
IP. -/
theorem C7_witness :
    riskFlags (.str "AssumedRole") (.str "ProdAccess") (.str "52.1.2.3") =
      .ok ((if eqStr (.str "AssumedRole") "Root"
              then [":rotating_light: *ROOT ACCOUNT* :rotating_light:"] else [])
        ++ (if eqStr (.str "AssumedRole") "AssumedRole" && privLabel (.str "ProdAccess")
              then [":warning: privileged role?"] else [])
        ++ (if externalIp "52.1.2.3" then [":globe_with_meridians: external IP"] else [])) :=
  C7_risk_flag_classification.1 (.str "AssumedRole") (.str "ProdAccess") (.str "52.1.2.3")
    "52.1.2.3" rfl (fun _ => ⟨"ProdAccess", rfl⟩)

/-! ### C1 -/

/-- A value that is a string, or falsy (so that a Python `or`-chain replaces
it), or absent. -/
def strOrFalsyV (v : JValue) : Bool :=
  match v with
  | .str _ => true
  | v => !(truthy v)

/-- Optional-field version of `strOrFalsyV`. -/
def strOrFalsy (o : Option JValue) : Bool :=
  match o with
  | none => true
  | some v => strOrFalsyV v

/-- An optional field that is absent or a string (the shape needed by
`startswith` / slicing call sites, which raise even on falsy non-strings). -/
def isStrOpt (o : Option JValue) : Bool :=
  match o with
  | none => true
  | some (.str _) => true
  | some _ => false

/-- The `sessionContext` / `sessionIssuer` chain is dict-shaped where
present. -/
def scOK (fs : List (String × JValue)) : Bool :=
  match lookup fs "sessionContext" with
  | none => true
  | some (.obj g) =>
    (match lookup g "sessionIssuer" with
     | none => true
     | some (.obj _) => true
     | some _ => false)
  | some _ => false

/-- A user identity `build_user_summary` cannot raise on: only the
`AssumedRole` arm can raise, on a truthy non-string `arn`, a non-string
label source, or a non-dict session-context chain. -/
def uiOK (v : JValue) : Bool :=
  match v with
  | .obj fs =>
    if eqStr ((lookup fs "type").getD .null) "AssumedRole" then
      strOrFalsy (lookup fs "arn") && strOrFalsy (lookup fs "userName")
        && strOrFalsy (lookup fs "principalId") && scOK fs
    else true
  | _ => true

/-- An optional field that is absent, falsy, or a dict (the shape
`.get(...) or {}` tolerates). -/
def objOrFalsy (o : Option JValue) : Bool :=
  match o with
  | none => true
  | some (.obj _) => true
  | some v => !(truthy v)

/-- `responseElements` shape: absent/falsy/dict, with
`StartSessionResponse` absent or a dict inside. -/
def respOK (o : Option JValue) : Bool :=
  match o with
  | none => true
  | some (.obj g) =>
    (match lookup g "StartSessionResponse" with
     | none => true
     | some (.obj _) => true
     | some _ => false)
  | some v => !(truthy v)

/-- `detail` shape under which the builder cannot raise: absent or a dict
whose risky fields are well-shaped. -/
def detailOK (o : Option JValue) : Bool :=
  match o with
  | none => true
  | some (.obj d) =>
    isStrOpt (lookup d "sourceIPAddress") && isStrOpt (lookup d "userAgent")
      && uiOK ((lookup d "userIdentity").getD (.obj []))
      && objOrFalsy (lookup d "requestParameters")
      && respOK (lookup d "responseElements")
  | some _ => false

/-- Structurally well-shaped input events: a dict whose `detail` satisfies
`detailOK`.  Empty events and events with missing fields qualify. -/
def goodEvent (e : JValue) : Bool :=
  match e with
  | .obj fs => detailOK (lookup fs "detail")
  | _ => false

/-- `isOk` of an `Except` bind, conditioned on the bound value. -/
theorem isOk_bind_forall {a b : Type} (x : Except String a) (f : a → Except String b)
    (hx : x.isOk = true) (hf : ∀ u, x = .ok u → (f u).isOk = true) :
    (x >>= f).isOk = true := by
  cases x with
  | error e => simp [Except.isOk, Except.toBool] at hx
  | ok u =>
    have := hf u rfl
    simpa [Bind.bind, Except.bind] using this

/-- A `pyOrE` of two successful computations succeeds. -/
theorem pyOrE_isOk (a b : Except String JValue)
    (ha : a.isOk = true) (hb : b.isOk = true) : (pyOrE a b).isOk = true := by
  cases a with
  | error e => simp [Except.isOk, Except.toBool] at ha
  | ok u =>
    by_cases ht : truthy u = true
    · simp [pyOrE, Bind.bind, Except.bind, ht, pure, Except.pure, Except.isOk, Except.toBool]
    · simp only [Bool.not_eq_true] at ht
      simpa [pyOrE, Bind.bind, Except.bind, ht] using hb

/-- The defaulted lookup of an `isStrOpt` field is a string. -/
theorem isStrOpt_getD (o : Option JValue) (d : String) (h : isStrOpt o = true) :
    ∃ s, o.getD (.str d) = .str s := by
  cases o with
  | none => exact ⟨d, rfl⟩
  | some v =>
    cases v <;> simp [isStrOpt] at h ⊢

/-- The `or {}`-guarded request/response dict is a dict. -/
theorem objOrFalsy_pyOr (o : Option JValue) (h : objOrFalsy o = true) :
    ∃ g, pyOr (o.getD (.obj [])) (.obj []) = .obj g := by
  cases o with
  | none => exact ⟨[], rfl⟩
  | some v =>
    cases v with
    | obj g =>
      by_cases ht : truthy (JValue.obj g) = true
      · exact ⟨g, by simp [pyOr, ht]⟩
      · exact ⟨[], by simp only [Bool.not_eq_true] at ht; simp [pyOr, Option.getD, ht]⟩
    | null => exact ⟨[], by simp [pyOr, Option.getD, truthy]⟩
    | bool b =>
      simp [objOrFalsy, truthy] at h
      exact ⟨[], by simp [pyOr, Option.getD, truthy, h]⟩
    | num n =>
      simp [objOrFalsy, truthy] at h
      exact ⟨[], by simp [pyOr, Option.getD, truthy, h]⟩
    | str s =>
      simp [objOrFalsy, truthy] at h
      exact ⟨[], by simp [pyOr, Option.getD, truthy, h]⟩
    | arr xs =>
      simp [objOrFalsy, truthy] at h
      exact ⟨[], by simp [pyOr, Option.getD, truthy, h]⟩

/-- The `or {}`-guarded response dict also has a dict-or-absent
`StartSessionResponse`. -/
theorem respOK_pyOr (o : Option JValue) (h : respOK o = true) :
    ∃ g, pyOr (o.getD (.obj [])) (.obj []) = .obj g ∧
      ∃ g2, (lookup g "StartSessionResponse").getD (.obj []) = .obj g2 := by
  have hobj : objOrFalsy o = true := by
    cases o with
    | none => rfl
    | some v => cases v <;> simp [respOK, objOrFalsy] at h ⊢ <;> exact h
  obtain ⟨g, hg⟩ := objOrFalsy_pyOr o hobj
  refine ⟨g, hg, ?_⟩
  cases o with
  | none =>
    simp only [Option.getD] at hg
    have : g = [] := by
      have h2 : JValue.obj [] = JValue.obj g := by simpa [pyOr, truthy] using hg
      injection h2 with h3
      exact h3.symm
    subst this
    exact ⟨[], rfl⟩
  | some v =>
    cases v with
    | obj g0 =>
      simp only [Option.getD] at hg
      by_cases ht : truthy (JValue.obj g0) = true
      · rw [pyOr, if_pos ht] at hg
        injection hg with h2
        subst h2
        simp only [respOK] at h
        cases hssr : lookup g0 "StartSessionResponse" with
        | none => exact ⟨[], by simp [hssr]⟩
        | some w =>
          rw [hssr] at h
          cases w with
          | obj g2 => exact ⟨g2, by simp [hssr, Option.getD]⟩
          | null => simp at h
          | bool b => simp at h
          | num n => simp at h
          | str t => simp at h
          | arr xs => simp at h
      · simp only [Bool.not_eq_true] at ht
        rw [pyOr, ht] at hg
        simp only [if_false, Bool.false_eq_true] at hg
        injection hg with h2
        subst h2
        exact ⟨[], rfl⟩
    | null =>
      have : g = [] := by
        have h2 : JValue.obj [] = JValue.obj g := by simpa [pyOr, truthy, Option.getD] using hg
        injection h2 with h3
        exact h3.symm
      subst this
      exact ⟨[], rfl⟩
    | bool b =>
      simp [respOK, truthy] at h
      have : g = [] := by
        have h2 : JValue.obj [] = JValue.obj g := by
          simpa [pyOr, truthy, Option.getD, h] using hg
        injection h2 with h3
        exact h3.symm
      subst this
      exact ⟨[], rfl⟩
    | num n =>
      simp [respOK, truthy] at h
      have : g = [] := by
        have h2 : JValue.obj [] = JValue.obj g := by
          simpa [pyOr, truthy, Option.getD, h] using hg
        injection h2 with h3
        exact h3.symm
      subst this
      exact ⟨[], rfl⟩
    | str s =>
      simp [respOK, truthy] at h
      have : g = [] := by
        have h2 : JValue.obj [] = JValue.obj g := by
          simpa [pyOr, truthy, Option.getD, h] using hg
        injection h2 with h3
        exact h3.symm
      subst this
      exact ⟨[], rfl⟩
    | arr xs =>
      simp [respOK, truthy] at h
      have : g = [] := by
        have h2 : JValue.obj [] = JValue.obj g := by
          simpa [pyOr, truthy, Option.getD, h] using hg
        injection h2 with h3
        exact h3.symm
      subst this
      exact ⟨[], rfl⟩

/-- A truthy operand wins the Python `or`. -/
theorem pyOr_truthy (a b : JValue) (h : truthy a = true) : pyOr a b = a := by
  simp [pyOr, h]

/-- A falsy operand loses the Python `or`. -/
theorem pyOr_falsy (a b : JValue) (h : truthy a = false) : pyOr a b = b := by
  simp [pyOr, h]

/-- A truthy string-or-falsy value is a string. -/
theorem strOrFalsyV_truthy (a : JValue) (h : strOrFalsyV a = true) (ht : truthy a = true) :
    ∃ s, a = .str s := by
  cases a with
  | str s => exact ⟨s, rfl⟩
  | null => simp [truthy] at ht
  | bool b =>
    simp [strOrFalsyV, truthy] at h
    simp [truthy, h] at ht
  | num n =>
    simp [strOrFalsyV, truthy] at h
    simp [truthy, h] at ht
  | arr xs =>
    simp [strOrFalsyV, truthy] at h
    simp [truthy, h] at ht
  | obj g =>
    simp [strOrFalsyV, truthy] at h
    simp [truthy, h] at ht

/-- A Python `or` of a string-or-falsy value with a string-valued fallback
produces a string. -/
theorem pyOr_str_of_strOrFalsy (a b : JValue) (ha : strOrFalsyV a = true)
    (hb : ∃ t, b = .str t) : ∃ s, pyOr a b = .str s := by
  by_cases ht : truthy a = true
  · obtain ⟨s, rfl⟩ := strOrFalsyV_truthy a ha ht
    exact ⟨s, pyOr_truthy _ _ ht⟩
  · simp only [Bool.not_eq_true] at ht
    obtain ⟨t, rfl⟩ := hb
    exact ⟨t, pyOr_falsy _ _ ht⟩

/-- Defaulted-lookup version of `pyOr_str_of_strOrFalsy`. -/
theorem pyOr_getD_str (o : Option JValue) (b : JValue) (ho : strOrFalsy o = true)
    (hb : ∃ t, b = .str t) : ∃ s, pyOr (o.getD .null) b = .str s := by
  cases o with
  | none =>
    obtain ⟨t, rfl⟩ := hb
    exact ⟨t, by rw [Option.getD_none]; exact pyOr_falsy _ _ rfl⟩
  | some w =>
    rw [Option.getD_some]
    exact pyOr_str_of_strOrFalsy w b ho hb

/-- On a `uiOK` identity `build_user_summary` succeeds, and whenever the
resolved `UserType` is `AssumedRole` the returned label is a string. -/
theorem build_user_summary_ok (v : JValue) (h : uiOK v = true) :
    ∃ lbl ex, build_user_summary v = .ok (lbl, ex) ∧
      ((lookup ex "UserType").getD (.str "-") = .str "AssumedRole" → ∃ s, lbl = .str s) := by
  cases v with
  | obj fs =>
    by_cases h1 : eqStr ((lookup fs "type").getD .null) "IAMUser" = true
    · refine ⟨pyOr ((lookup fs "userName").getD .null)
          (pyOr ((lookup fs "principalId").getD .null) (.str "iam-user")),
        [("Account", pyOr ((lookup fs "accountId").getD .null) (.str "-")),
         ("Principal", pyOr ((lookup fs "principalId").getD .null) (.str "-")),
         ("UserType", .str "IAMUser")],
        by simp [build_user_summary, h1], ?_⟩
      intro hAT
      simp [lookup, Option.getD] at hAT
    · by_cases h2 : eqStr ((lookup fs "type").getD .null) "AssumedRole" = true
      · simp only [uiOK] at h
        rw [if_pos h2] at h
        simp only [Bool.and_eq_true] at h
        obtain ⟨⟨⟨harn, hun⟩, hpr⟩, hsc⟩ := h
        obtain ⟨s, hs⟩ := pyOr_getD_str _ _ harn ⟨"", rfl⟩
        obtain ⟨t, ht⟩ := pyOr_getD_str _ _ hun (pyOr_getD_str _ _ hpr ⟨"assumed-role", rfl⟩)
        have hg2 : ∃ g2, getD ((lookup fs "sessionContext").getD (.obj []))
            "sessionIssuer" (.obj []) = .ok (.obj g2) := by
          simp only [scOK] at hsc
          cases hv : lookup fs "sessionContext" with
          | none => exact ⟨[], by simp [getD, lookup]⟩
          | some w =>
            rw [hv] at hsc
            cases w with
            | obj g =>
              simp only [Option.getD_some] at hsc ⊢
              cases hw : lookup g "sessionIssuer" with
              | none => exact ⟨[], by simp [getD, hw]⟩
              | some w2 =>
                rw [hw] at hsc
                cases w2 with
                | obj g2 => exact ⟨g2, by simp [getD, hw]⟩
                | null => simp at hsc
                | bool b => simp at hsc
                | num n => simp at hsc
                | str u => simp at hsc
                | arr xs => simp at hsc
            | null => simp at hsc
            | bool b => simp at hsc
            | num n => simp at hsc
            | str u => simp at hsc
            | arr xs => simp at hsc
        obtain ⟨g2, hg2⟩ := hg2
        by_cases hsl : s.toList.contains '/' = true
        · refine ⟨.str (String.mk ((splitCh '/' s.toList).getLastD [])), [("Account", pyOr ((lookup fs "accountId").getD .null) (.str "-")),
             ("Principal", pyOr ((lookup fs "principalId").getD .null) (.str "-")),
             ("UserType", .str "AssumedRole"),
             ("RoleIssuer", pyOr ((lookup g2 "arn").getD .null) (.str "-"))], ?_, ?_⟩
          · simp only [build_user_summary]
            rw [if_neg (by simp [h1]), if_pos h2, hs, hg2]
            have hmem : '/' ∈ s.data := by simpa using hsl
            simp [hmem, Bind.bind, Except.bind, getD, pure, Except.pure]
          · intro _
            exact ⟨_, rfl⟩
        · refine ⟨.str t, [("Account", pyOr ((lookup fs "accountId").getD .null) (.str "-")),
             ("Principal", pyOr ((lookup fs "principalId").getD .null) (.str "-")),
             ("UserType", .str "AssumedRole"),
             ("RoleIssuer", pyOr ((lookup g2 "arn").getD .null) (.str "-"))], ?_, ?_⟩
          · simp only [build_user_summary]
            rw [if_neg (by simp [h1]), if_pos h2, hs, hg2]
            have hmem : ¬('/' ∈ s.data) := by simpa using hsl
            rw [← ht]
            simp [hmem, Bind.bind, Except.bind, getD, pure, Except.pure]
          · intro _
            exact ⟨t, rfl⟩
      · by_cases h3 : eqStr ((lookup fs "type").getD .null) "Root" = true
        · exact ⟨.str "Root",
            [("Account", pyOr ((lookup fs "accountId").getD .null) (.str "-")),
             ("Principal", pyOr ((lookup fs "principalId").getD .null) (.str "-")),
             ("UserType", .str "Root")],
            by simp [build_user_summary, h1, h2, h3], fun _ => ⟨"Root", rfl⟩⟩
        · refine ⟨pyOr ((lookup fs "userName").getD .null)
              (pyOr ((lookup fs "principalId").getD .null)
                (pyOr (pyOr ((lookup fs "arn").getD .null) (.str "")) (.str "unknown"))),
            [("Account", pyOr ((lookup fs "accountId").getD .null) (.str "-")),
             ("Principal", pyOr ((lookup fs "principalId").getD .null) (.str "-")),
             ("UserType", pyOr ((lookup fs "type").getD .null) (.str "Unknown"))],
            by simp [build_user_summary, h1, h2, h3], ?_⟩
          intro hAT
          simp [lookup] at hAT
          by_cases htt : truthy ((lookup fs "type").getD .null) = true
          · rw [pyOr_truthy _ _ htt] at hAT
            rw [eqStr_iff] at h2
            exact absurd hAT h2
          · simp only [Bool.not_eq_true] at htt
            rw [pyOr_falsy _ _ htt] at hAT
            simp at hAT
  | null => exact ⟨.str "unknown", [], rfl, fun hAT => by simp [lookup, Option.getD] at hAT⟩
  | bool b => exact ⟨.str "unknown", [], rfl, fun hAT => by simp [lookup, Option.getD] at hAT⟩
  | num n => exact ⟨.str "unknown", [], rfl, fun hAT => by simp [lookup, Option.getD] at hAT⟩
  | str t => exact ⟨.str "unknown", [], rfl, fun hAT => by simp [lookup, Option.getD] at hAT⟩
  | arr xs => exact ⟨.str "unknown", [], rfl, fun hAT => by simp [lookup, Option.getD] at hAT⟩

/-- `riskFlags` succeeds whenever the source IP is a string and the label is
a string in the `AssumedRole` case. -/
theorem riskFlags_isOk (ut us ip : JValue) (hip : ∃ s, ip = .str s)
    (hus : eqStr ut "AssumedRole" = true → ∃ s, us = .str s) :
    (riskFlags ut us ip).isOk = true := by
  obtain ⟨ipS, rfl⟩ := hip
  by_cases hAR : eqStr ut "AssumedRole" = true
  · obtain ⟨s, rfl⟩ := hus hAR
    simp only [riskFlags, hAR, if_true]
    refine isOk_bind_forall _ _ (by simp [Except.isOk, Except.toBool, pure, Except.pure]) ?_
    intro u _
    split <;> simp [Bind.bind, Except.bind, Except.isOk, Except.toBool, pure, Except.pure]
  · simp only [riskFlags, hAR, Bool.false_eq_true, if_false]
    refine isOk_bind_forall _ _ (by simp [Except.isOk, Except.toBool, pure, Except.pure]) ?_
    intro u _
    split <;> simp [Bind.bind, Except.bind, Except.isOk, Except.toBool, pure, Except.pure]

/-- On a well-shaped `detail` dict, the extraction phase of the richer
builder succeeds. -/
theorem extract_main_isOk (fs d : List (String × JValue))
    (hd : (lookup fs "detail").getD (.obj []) = .obj d)
    (hip : isStrOpt (lookup d "sourceIPAddress") = true)
    (hua : isStrOpt (lookup d "userAgent") = true)
    (hui : uiOK ((lookup d "userIdentity").getD (.obj [])) = true)
    (hreq : objOrFalsy (lookup d "requestParameters") = true)
    (hresp : respOK (lookup d "responseElements") = true) :
    (extract_main (.obj fs)).isOk = true := by
  obtain ⟨ipS, hipS⟩ := isStrOpt_getD _ "-" hip
  obtain ⟨uaS, huaS⟩ := isStrOpt_getD _ "-" hua
  obtain ⟨lbl, ex, hbus, hstr⟩ := build_user_summary_ok _ hui
  obtain ⟨gq, hgq⟩ := objOrFalsy_pyOr _ hreq
  obtain ⟨gr, hgr, g3, hg3⟩ := respOK_pyOr _ hresp
  rw [extract_main]
  refine isOk_bind_forall _ _ rfl ?_
  intro dv hv
  injection hv with hv2
  subst hv2
  rw [hd]
  refine isOk_bind_forall _ _ rfl ?_
  intro v1 hv1
  injection hv1 with hv1b
  subst hv1b
  refine isOk_bind_forall _ _ rfl ?_
  intro v2 hv2
  injection hv2 with hv2b
  subst hv2b
  refine isOk_bind_forall _ _ rfl ?_
  intro v3 hv3
  injection hv3 with hv3b
  subst hv3b
  refine isOk_bind_forall _ _ rfl ?_
  intro v4 hv4
  injection hv4 with hv4b
  subst hv4b
  refine isOk_bind_forall _ _ rfl ?_
  intro v5 hv5
  injection hv5 with hv5b
  subst hv5b
  refine isOk_bind_forall _ _ (pyOrE_isOk _ _ rfl (pyOrE_isOk _ _ rfl rfl)) ?_
  intro eid _
  refine isOk_bind_forall _ _ rfl ?_
  intro v6 hv6
  injection hv6 with hv6b
  subst hv6b
  refine isOk_bind_forall _ _ (by rw [hbus]; rfl) ?_
  intro us hus
  rw [hbus] at hus
  injection hus with husb
  subst husb
  refine isOk_bind_forall _ _ rfl ?_
  intro vq hvq
  injection hvq with hvqb
  subst hvqb
  refine isOk_bind_forall _ _ rfl ?_
  intro vr hvr
  injection hvr with hvrb
  subst hvrb
  refine isOk_bind_forall _ _
    (by rw [hgq]; exact pyOrE_isOk _ _ rfl (pyOrE_isOk _ _ rfl rfl)) ?_
  intro _ _
  refine isOk_bind_forall _ _
    (by rw [hgq]; exact pyOrE_isOk _ _ rfl (pyOrE_isOk _ _ rfl rfl)) ?_
  intro _ _
  refine isOk_bind_forall _ _
    (by rw [hgq]; exact pyOrE_isOk _ _ rfl (pyOrE_isOk _ _ rfl rfl)) ?_
  intro _ _
  refine isOk_bind_forall _ _ ?_ ?_
  · rw [hgr]
    refine pyOrE_isOk _ _ rfl (pyOrE_isOk _ _ rfl (pyOrE_isOk _ _ ?_ rfl))
    refine isOk_bind_forall _ _ rfl ?_
    intro w hw
    injection hw with hwb
    subst hwb
    rw [hg3]
    rfl
  intro _ _
  refine isOk_bind_forall _ _ ?_ ?_
  · exact riskFlags_isOk _ _ _ ⟨ipS, hipS⟩ (fun hAR => hstr ((eqStr_iff _ _).mp hAR))
  intro _ _
  refine isOk_bind_forall _ _ ?_ ?_
  · rw [huaS]
    rfl
  intro _ _
  rfl

/-- The payload the richer builder produces for the empty event `{}` in an
empty environment: every field resolved to its placeholder. -/
def payload0 : JValue := .obj [
  ("text", .str "UnknownEvent unknown -> - (-) session=- doc=- ip=-"),
  ("blocks", .arr [
    .obj [("type", .str "header"),
          ("text", .obj [("type", .str "plain_text"),
                         ("text", .str ":information_source: SSM UnknownEvent")])],
    .obj [("type", .str "section"),
          ("text", .obj [("type", .str "mrkdwn"),
                         ("text", .str "*User:* unknown  |  *Acct:* -\n*Target:* `-`  |  *Session:* `-`\n*Doc:* `-`  |  *Region:* -\n*IP:* -")])],
    .obj [("type", .str "divider")],
    .obj [("type", .str "context"), ("elements", .arr [
      .obj [("type", .str "mrkdwn"), ("text", .str "*Time:* -")],
      .obj [("type", .str "mrkdwn"), ("text", .str "*UserType:* Unknown")],
      .obj [("type", .str "mrkdwn"), ("text", .str "UA: -")]])]]),
  ("unfurl_links", .bool false),
  ("unfurl_media", .bool false),
  ("username", .str "SSM Alerts"),
  ("icon_emoji", .str ":lock:")]

/-- C1 counterexample: on the event
`{"detail": {"requestParameters": "oops"}}` — a structurally malformed
`requestParameters` — `build_slack_payload` raises (Python
`AttributeError: 'str' object has no attribute 'get'`) instead of degrading
to placeholders. -/
theorem C1_claim_counterexample :
    (build_slack_payload env0
      (.obj [("detail", .obj [("requestParameters", .str "oops")])])).isOk = false := rfl

/-- C1 (amended): on every structurally well-shaped event (`goodEvent`:
the event is a dict; `detail` absent or a dict; source IP and user agent
absent or strings; `userIdentity` arbitrary except that an `AssumedRole`
dict must carry string-or-falsy `arn`/`userName`/`principalId` and a
dict-shaped session-context chain; `requestParameters` absent/falsy/dict;
`responseElements` absent/falsy/dict with `StartSessionResponse` absent or
a dict) the builder returns a payload without raising, and missing fields
degrade to the placeholder `"-"` (or the documented default): the empty
event yields exactly the all-placeholder payload. -/
theorem C1_wellshaped_builder_total :
    (∀ env e, goodEvent e = true → (build_slack_payload env e).isOk = true) ∧
    build_slack_payload env0 (.obj []) = .ok payload0 := by
  constructor
  · intro env e hg
    cases e with
    | obj fs =>
      simp only [goodEvent] at hg
      have hex : (extract_main (.obj fs)).isOk = true := by
        cases hd : lookup fs "detail" with
        | none =>
          refine extract_main_isOk fs [] (by rw [hd]; rfl) rfl rfl rfl rfl rfl
        | some v =>
          rw [hd] at hg
          cases v with
          | obj dd =>
            simp only [detailOK, Bool.and_eq_true] at hg
            obtain ⟨⟨⟨⟨h1, h2⟩, h3⟩, h4⟩, h5⟩ := hg
            exact extract_main_isOk fs dd (by rw [hd]; rfl) h1 h2 h3 h4 h5
          | null => simp [detailOK] at hg
          | bool b => simp [detailOK] at hg
          | num n => simp [detailOK] at hg
          | str t => simp [detailOK] at hg
          | arr xs => simp [detailOK] at hg
      rw [build_slack_payload]
      refine isOk_bind_forall _ _ hex ?_
      intro r _
      rfl
    | null => simp [goodEvent] at hg
    | bool b => simp [goodEvent] at hg
    | num n => simp [goodEvent] at hg
    | str t => simp [goodEvent] at hg
    | arr xs => simp [goodEvent] at hg
  · rfl

/-- Witness for C1 at a concrete well-shaped event with several fields
missing. -/
theorem C1_witness :
    (build_slack_payload env0
      (.obj [("detail", .obj [("eventName", .str "StartSession")])])).isOk = true :=
  C1_wellshaped_builder_total.1 env0
    (.obj [("detail", .obj [("eventName", .str "StartSession")])]) rfl

/-! ### C3 -/

/-- A `pyOrE` chain whose base always yields truthy values yields a truthy
value. -/
theorem pyOrE_ok_truthy (a b : Except String JValue) (v : JValue)
    (hb : ∀ w, b = .ok w → truthy w = true) (h : pyOrE a b = .ok v) :
    truthy v = true := by
  cases a with
  | error e => simp [pyOrE, Bind.bind, Except.bind] at h
  | ok u =>
    by_cases ht : truthy u = true
    · have hv : u = v := by
        simpa [pyOrE, Bind.bind, Except.bind, ht, pure, Except.pure] using h
      rw [← hv]
      exact ht
    · simp only [Bool.not_eq_true] at ht
      apply hb
      rw [← h]
      simp [pyOrE, Bind.bind, Except.bind, ht]

/-- The resolved `reason` of a successful extraction is truthy (the
`or`-chain ends in the truthy placeholder `"-"`). -/
theorem extract_main_reason_truthy (e : JValue) (r : Resolved)
    (h : extract_main e = .ok r) : truthy r.reason = true := by
  simp only [extract_main, bindE_ok, pureE_ok] at h
  obtain ⟨d, _, en, _, rg, _, tm, _, ip, _, ua, _, eid, _, ui, _, us, _, vq, _, vr, _,
    tg, _, dn, _, rs, hrs, sid, _, fl, _, uat, _, hfin⟩ := h
  subst hfin
  simp only []
  refine pyOrE_ok_truthy _ _ _ ?_ hrs
  intro w hw
  refine pyOrE_ok_truthy _ _ _ ?_ hw
  intro w2 hw2
  rw [pureE_ok] at hw2
  subst hw2
  rfl

/-- The analogue for the simpler builder. -/
theorem extract_lf_reason_truthy (e : JValue) (r : LfResolved)
    (h : extract_lf e = .ok r) : truthy r.reason = true := by
  simp only [extract_lf, bindE_ok, pureE_ok] at h
  obtain ⟨d, _, en, _, rg, _, tm, _, ip, _, ua, _, ui, _, us, _, vq, _, vr, _,
    tg, _, rs, hrs, sid, _, hfin⟩ := h
  subst hfin
  simp only []
  refine pyOrE_ok_truthy _ _ _ ?_ hrs
  intro w hw
  refine pyOrE_ok_truthy _ _ _ ?_ hw
  intro w2 hw2
  rw [pureE_ok] at hw2
  subst hw2
  rfl

/-- The fallback of the richer builder is its base line plus a conditional
` reason=` suffix. -/
theorem fallbackText_eq (r : Resolved) :
    fallbackText r = fallbackBase r ++
      (if reasonShown r.reason then " reason=" ++ pyStr r.reason else "") := by
  by_cases h : reasonShown r.reason = true
  · simp [fallbackText, h, String.append_assoc]
  · simp only [Bool.not_eq_true] at h
    simp [fallbackText, h]

/-- C3 counterexample: the spec's chosen (richer) builder composes its
fallback as a single arrow-format line, not as `key: value` lines — on the
end-to-end event the produced fallback contains no colon at all (so no
`key: value` line) and no newline. -/
theorem C3_claim_counterexample :
    (build_slack_payload env0 (.obj [("detail", .obj [
        ("eventName", .str "StartSession"),
        ("userIdentity", .obj [("type", .str "IAMUser"), ("userName", .str "alice")]),
        ("requestParameters", .obj [("target", .str "i-0123")]),
        ("responseElements", .obj [("sessionId", .str "sess-1")])])])).map
      (fun p => match p with
        | .obj fields =>
          (match lookup fields "text" with
           | some (.str t) =>
             t == "StartSession alice -> i-0123 (-) session=sess-1 doc=- ip=-"
               && !(t.toList.contains ':') && !(t.toList.contains '\n')
           | _ => false)
        | _ => false) = .ok true := rfl

/-- C3 (amended): the richer builder (`main.py`) composes the plain-text
fallback as the single line `<event> <user> -> <target> (<region>)
session=<id> doc=<doc> ip=<ip>` and appends ` reason=<reason>` exactly when
the resolved reason is non-placeholder; the simpler builder
(`lambda_function.py`) composes it by joining `key: value` fact lines after
an `SSM <event>` title line and appends a `Reason: <reason>` line exactly
when the resolved reason is non-placeholder. -/
theorem C3_fallback_composition :
    (∀ env e r, extract_main e = .ok r →
      ∃ fields, build_slack_payload env e = .ok (.obj fields) ∧
        lookup fields "text" = some (.str (fallbackBase r ++
          (if reasonShown r.reason then " reason=" ++ pyStr r.reason else ""))) ∧
        (reasonShown r.reason = true ↔ r.reason ≠ .str "-")) ∧
    (∀ env e r, extract_lf e = .ok r →
      ∃ fields, lf_build_slack_payload env e = .ok (.obj fields) ∧
        lookup fields "text" = some (.str (joinNL
          (["SSM " ++ pyStr r.event_name,
            "User: " ++ pyStr r.user_str,
            "Account: " ++ pyStr ((lookup r.user_fields "Account").getD (.str "-")),
            "Target: " ++ pyStr r.target,
            "SessionId: " ++ pyStr r.session_id,
            "Region: " ++ pyStr r.region,
            "Source IP: " ++ pyStr r.source_ip,
            "Time: " ++ pyStr r.event_time]
           ++ (if reasonShown r.reason then ["Reason: " ++ pyStr r.reason] else [])))) ∧
        (reasonShown r.reason = true ↔ r.reason ≠ .str "-")) := by
  constructor
  · intro env e r h
    have htr := extract_main_reason_truthy e r h
    refine ⟨mainFields env r, ?_, ?_, ?_⟩
    · rw [build_slack_payload, h]
      simp [Bind.bind, Except.bind, pure, Except.pure, assemble_main]
    · rw [← fallbackText_eq]
      simp [mainFields, lookup]
    · constructor
      · intro hshown
        intro hcontra
        rw [reasonShown, hcontra] at hshown
        simp [eqStr, truthy] at hshown
      · intro hne
        rw [reasonShown, htr]
        simp only [Bool.true_and, Bool.not_eq_true']
        rw [← Bool.not_eq_true]
        intro hc
        rw [eqStr_iff] at hc
        exact hne hc
  · intro env e r h
    have htr := extract_lf_reason_truthy e r h
    refine ⟨lfFields env r, ?_, ?_, ?_⟩
    · rw [lf_build_slack_payload, h]
      simp [Bind.bind, Except.bind, pure, Except.pure, assemble_lf]
    · simp [lfFields, lookup, lfTextLines]
    · constructor
      · intro hshown
        intro hcontra
        rw [reasonShown, hcontra] at hshown
        simp [eqStr, truthy] at hshown
      · intro hne
        rw [reasonShown, htr]
        simp only [Bool.true_and, Bool.not_eq_true']
        rw [← Bool.not_eq_true]
        intro hc
        rw [eqStr_iff] at hc
        exact hne hc

/-- The spec's end-to-end test event: `StartSession` by IAM user `alice` on
target `i-0123` with session `sess-1`. -/
def ev9 : JValue := .obj [("detail", .obj [
  ("eventName", .str "StartSession"),
  ("userIdentity", .obj [("type", .str "IAMUser"), ("userName", .str "alice")]),
  ("requestParameters", .obj [("target", .str "i-0123")]),
  ("responseElements", .obj [("sessionId", .str "sess-1")])])]

/-- The resolved values the richer builder extracts from `ev9`. -/
def r9 : Resolved :=
  { event_name := .str "StartSession", region := .str "-", event_time := .str "-",
    source_ip := .str "-", user_agent := .str "-", event_id := .str "-",
    user_str := .str "alice",
    user_fields := [("Account", .str "-"), ("Principal", .str "-"),
      ("UserType", .str "IAMUser")],
    user_type := .str "IAMUser", target := .str "i-0123", doc_name := .str "-",
    reason := .str "-", session_id := .str "sess-1", risk_flags := [],
    ua_trunc := .str "-" }

/-- Witness for C3 at the concrete end-to-end event. -/
theorem C3_witness :
    ∃ fields, build_slack_payload env0 ev9 = .ok (.obj fields) ∧
      lookup fields "text" = some (.str (fallbackBase r9 ++
        (if reasonShown r9.reason then " reason=" ++ pyStr r9.reason else ""))) ∧
      (reasonShown r9.reason = true ↔ r9.reason ≠ .str "-") :=
  C3_fallback_composition.1 env0 ev9 r9 rfl

/-! ### C9 -/

/-- `toList` distributes over string append. -/
theorem strToList_append (a b : String) : (a ++ b).toList = a.toList ++ b.toList :=
  String.data_append a b

/-- The middle of a three-part string concatenation is an infix. -/
theorem isInfix_middle (pre mid suf : String) :
    List.IsInfix mid.toList (pre ++ mid ++ suf).toList :=
  ⟨pre.toList, suf.toList, by simp [strToList_append]⟩

/-- The second part of a concatenation is an infix. -/
theorem isInfix_suffix (pre mid : String) :
    List.IsInfix mid.toList (pre ++ mid).toList :=
  ⟨pre.toList, [], by simp [strToList_append]⟩

/-- An infix of `a` is an infix of `a ++ b`. -/
theorem infix_append_right (u : List Char) (a b : String)
    (h : List.IsInfix u a.toList) : List.IsInfix u (a ++ b).toList := by
  obtain ⟨s, t, hst⟩ := h
  exact ⟨s, t ++ b.toList, by rw [strToList_append, ← hst]; simp⟩

/-- An infix of `b` is an infix of `a ++ b`. -/
theorem infix_append_left (u : List Char) (a b : String)
    (h : List.IsInfix u b.toList) : List.IsInfix u (a ++ b).toList := by
  obtain ⟨s, t, hst⟩ := h
  exact ⟨a.toList ++ s, t, by rw [strToList_append, ← hst]; simp⟩

/-- Every joined line is an infix of the `"\n"`-join. -/
theorem joinNL_line_of_mem (l : List String) (x : String) (hx : x ∈ l) :
    List.IsInfix x.toList (joinNL l).toList := by
  induction l with
  | nil => simp at hx
  | cons a rest ih =>
    rcases List.mem_cons.mp hx with hx1 | hx2
    · subst hx1
      cases rest with
      | nil => exact List.infix_rfl
      | cons b rs =>
        rw [show joinNL (x :: b :: rs) = x ++ "\n" ++ joinNL (b :: rs) from rfl]
        exact infix_append_right _ _ _ (infix_append_right _ _ _ List.infix_rfl)
    · have hne : rest ≠ [] := by
        intro hr
        subst hr
        simp at hx2
      cases rest with
      | nil => exact absurd rfl hne
      | cons b rs =>
        rw [show joinNL (a :: b :: rs) = a ++ "\n" ++ joinNL (b :: rs) from rfl]
        exact infix_append_left _ _ _ (ih hx2)

/-- Does the payload's fallback text contain the four end-to-end facts? -/
def fallbackHasFacts (p : JValue) : Bool :=
  match p with
  | .obj fields =>
    (match lookup fields "text" with
     | some (.str t) =>
       subOf ("StartSession".toList) t.toList && subOf ("alice".toList) t.toList
         && subOf ("i-0123".toList) t.toList && subOf ("sess-1".toList) t.toList
     | _ => false)
  | _ => false

/-- C9: the plain-text fallback carries the same essential facts as the
structured blocks — the resolved event name, actor label, target, session id
and region are each substrings of the fallback, the event name is a
substring of the header-block text, and the other four are substrings of the
section-block text; concretely, the end-to-end event yields a fallback
containing `"StartSession"`, `"alice"`, `"i-0123"` and `"sess-1"`. -/
theorem C9_fallback_carries_facts :
    (∀ env e r, extract_main e = .ok r →
      ∃ fields, build_slack_payload env e = .ok (.obj fields) ∧
        lookup fields "text" = some (.str (fallbackText r)) ∧
        List.IsInfix (pyStr r.event_name).toList (fallbackText r).toList ∧
        List.IsInfix (pyStr r.user_str).toList (fallbackText r).toList ∧
        List.IsInfix (pyStr r.target).toList (fallbackText r).toList ∧
        List.IsInfix (pyStr r.session_id).toList (fallbackText r).toList ∧
        List.IsInfix (pyStr r.region).toList (fallbackText r).toList ∧
        List.IsInfix (pyStr r.event_name).toList (headerText r).toList ∧
        List.IsInfix (pyStr r.user_str).toList (sectionText r).toList ∧
        List.IsInfix (pyStr r.target).toList (sectionText r).toList ∧
        List.IsInfix (pyStr r.session_id).toList (sectionText r).toList ∧
        List.IsInfix (pyStr r.region).toList (sectionText r).toList) ∧
    (build_slack_payload env0 ev9).map fallbackHasFacts = .ok true := by
  refine ⟨?_, rfl⟩
  intro env e r h
  have hbase : ∀ u : List Char, List.IsInfix u (fallbackBase r).toList →
      List.IsInfix u (fallbackText r).toList := by
    intro u hu
    rw [fallbackText_eq]
    exact infix_append_right _ _ _ hu
  refine ⟨mainFields env r, ?_, by simp [mainFields, lookup], ?_, ?_, ?_, ?_, ?_, ?_, ?_, ?_, ?_, ?_⟩
  · rw [build_slack_payload, h]
    simp [Bind.bind, Except.bind, pure, Except.pure, assemble_main]
  · refine hbase _ ?_
    have hfb : fallbackBase r = "" ++ pyStr r.event_name ++ (" " ++ pyStr r.user_str
        ++ " -> " ++ pyStr r.target ++ " (" ++ pyStr r.region ++ ") session="
        ++ pyStr r.session_id ++ " doc=" ++ pyStr r.doc_name ++ " ip="
        ++ pyStr r.source_ip) := by
      simp [fallbackBase, String.append_assoc]
    rw [hfb]
    exact isInfix_middle _ _ _
  · refine hbase _ ?_
    have hfb : fallbackBase r = (pyStr r.event_name ++ " ") ++ pyStr r.user_str
        ++ (" -> " ++ pyStr r.target ++ " (" ++ pyStr r.region ++ ") session="
        ++ pyStr r.session_id ++ " doc=" ++ pyStr r.doc_name ++ " ip="
        ++ pyStr r.source_ip) := by
      simp [fallbackBase, String.append_assoc]
    rw [hfb]
    exact isInfix_middle _ _ _
  · refine hbase _ ?_
    have hfb : fallbackBase r = (pyStr r.event_name ++ " " ++ pyStr r.user_str
        ++ " -> ") ++ pyStr r.target ++ (" (" ++ pyStr r.region ++ ") session="
        ++ pyStr r.session_id ++ " doc=" ++ pyStr r.doc_name ++ " ip="
        ++ pyStr r.source_ip) := by
      simp [fallbackBase, String.append_assoc]
    rw [hfb]
    exact isInfix_middle _ _ _
  · refine hbase _ ?_
    have hfb : fallbackBase r = (pyStr r.event_name ++ " " ++ pyStr r.user_str
        ++ " -> " ++ pyStr r.target ++ " (" ++ pyStr r.region ++ ") session=")
        ++ pyStr r.session_id ++ (" doc=" ++ pyStr r.doc_name ++ " ip="
        ++ pyStr r.source_ip) := by
      simp [fallbackBase, String.append_assoc]
    rw [hfb]
    exact isInfix_middle _ _ _
  · refine hbase _ ?_
    have hfb : fallbackBase r = (pyStr r.event_name ++ " " ++ pyStr r.user_str
        ++ " -> " ++ pyStr r.target ++ " (") ++ pyStr r.region ++ (") session="
        ++ pyStr r.session_id ++ " doc=" ++ pyStr r.doc_name ++ " ip="
        ++ pyStr r.source_ip) := by
      simp [fallbackBase, String.append_assoc]
    rw [hfb]
    exact isInfix_middle _ _ _
  · rw [headerText]
    exact isInfix_suffix _ _
  · refine List.IsInfix.trans ?_ (joinNL_line_of_mem (summaryLines r)
        ("*User:* " ++ pyStr r.user_str ++ "  |  *Acct:* "
        ++ pyStr ((lookup r.user_fields "Account").getD (.str "-"))) (by simp [summaryLines]))
    have hl : "*User:* " ++ pyStr r.user_str ++ "  |  *Acct:* "
        ++ pyStr ((lookup r.user_fields "Account").getD (.str "-"))
        = "*User:* " ++ pyStr r.user_str ++ ("  |  *Acct:* "
          ++ pyStr ((lookup r.user_fields "Account").getD (.str "-"))) := by
      simp [String.append_assoc]
    rw [hl]
    exact isInfix_middle _ _ _
  · refine List.IsInfix.trans ?_ (joinNL_line_of_mem (summaryLines r)
        ("*Target:* `" ++ pyStr r.target ++ "`  |  *Session:* `"
        ++ pyStr r.session_id ++ "`") (by simp [summaryLines]))
    have hl : "*Target:* `" ++ pyStr r.target ++ "`  |  *Session:* `"
        ++ pyStr r.session_id ++ "`"
        = "*Target:* `" ++ pyStr r.target ++ ("`  |  *Session:* `"
          ++ pyStr r.session_id ++ "`") := by
      simp [String.append_assoc]
    rw [hl]
    exact isInfix_middle _ _ _
  · refine List.IsInfix.trans ?_ (joinNL_line_of_mem (summaryLines r)
        ("*Target:* `" ++ pyStr r.target ++ "`  |  *Session:* `"
        ++ pyStr r.session_id ++ "`") (by simp [summaryLines]))
    have hl : "*Target:* `" ++ pyStr r.target ++ "`  |  *Session:* `"
        ++ pyStr r.session_id ++ "`"
        = ("*Target:* `" ++ pyStr r.target ++ "`  |  *Session:* `")
          ++ pyStr r.session_id ++ "`" := by
      simp [String.append_assoc]
    rw [hl]
    exact isInfix_middle _ _ _
  · refine List.IsInfix.trans ?_ (joinNL_line_of_mem (summaryLines r)
        ("*Doc:* `" ++ pyStr r.doc_name ++ "`  |  *Region:* " ++ pyStr r.region) (by simp [summaryLines]))
    have hl : "*Doc:* `" ++ pyStr r.doc_name ++ "`  |  *Region:* " ++ pyStr r.region
        = ("*Doc:* `" ++ pyStr r.doc_name ++ "`  |  *Region:* ") ++ pyStr r.region := by
      simp [String.append_assoc]
    rw [hl]
    exact isInfix_suffix _ _

/-- Witness for C9 at the concrete end-to-end event. -/
theorem C9_witness :
    ∃ fields, build_slack_payload env0 ev9 = .ok (.obj fields) ∧
      lookup fields "text" = some (.str (fallbackText r9)) ∧
      List.IsInfix (pyStr r9.event_name).toList (fallbackText r9).toList ∧
      List.IsInfix (pyStr r9.user_str).toList (fallbackText r9).toList ∧
      List.IsInfix (pyStr r9.target).toList (fallbackText r9).toList ∧
      List.IsInfix (pyStr r9.session_id).toList (fallbackText r9).toList ∧
      List.IsInfix (pyStr r9.region).toList (fallbackText r9).toList ∧
      List.IsInfix (pyStr r9.event_name).toList (headerText r9).toList ∧
      List.IsInfix (pyStr r9.user_str).toList (sectionText r9).toList ∧
      List.IsInfix (pyStr r9.target).toList (sectionText r9).toList ∧
      List.IsInfix (pyStr r9.session_id).toList (sectionText r9).toList ∧
      List.IsInfix (pyStr r9.region).toList (sectionText r9).toList :=
  C9_fallback_carries_facts.1 env0 ev9 r9 rfl

/-! ### C10 — idempotence of the timestamp normalizer

Every output of `to_iso8601` is shown to be a fixed point: falsy input
yields `"-"` (itself a fixed point), unparseable strings come back
unchanged, and a normalized `fmtDT dt` either re-parses to exactly `dt`
with offset `+00:00` (years ≥ 1000) or fails to parse (years < 1000,
whose unpadded `%Y` rendering has fewer than four digits) — in both cases
a second application returns it unchanged. -/

/-- The bounds `parseDT` guarantees and `toUTC` preserves for a `DT`. -/
def ValidDT (dt : DT) : Prop :=
  1 ≤ dt.y ∧ dt.y ≤ 9999 ∧ 1 ≤ dt.mo ∧ dt.mo ≤ 12 ∧ 1 ≤ dt.d ∧
    dt.d ≤ daysInMonth dt.y dt.mo ∧ dt.hh ≤ 23 ∧ dt.mi ≤ 59 ∧ dt.ss ≤ 59

/-- The bound `rdTz` guarantees for the optional offset. -/
def offOK : Option Int → Prop
  | none => True
  | some o => -86399 ≤ o ∧ o ≤ 86399

theorem dc_toNat (k : Nat) (h : k ≤ 9) : (dc k).toNat = 48 + k := by
  interval_cases k <;> decide

theorem dc_ne_Z (k : Nat) (h : k ≤ 9) : dc k ≠ 'Z' := by
  intro hEq
  have h1 := dc_toNat k h
  rw [hEq] at h1
  have h2 : ('Z').toNat = 90 := by decide
  omega

theorem isDigitCh_dc (k : Nat) (h : k ≤ 9) : isDigitCh (dc k) = true := by
  simp [isDigitCh, dc_toNat k h]
  omega

theorem rdDigit_dc (k : Nat) (h : k ≤ 9) (rest : List Char) :
    rdDigit (dc k :: rest) = some (k, rest) := by
  have h1 : (dc k).toNat - 48 = k := by
    have := dc_toNat k h
    omega
  simp [rdDigit, isDigitCh_dc k h, h1]

theorem rd2_dc (a b : Nat) (ha : a ≤ 9) (hb : b ≤ 9) (rest : List Char) :
    rd2 (dc a :: dc b :: rest) = some (10 * a + b, rest) := by
  simp [rd2, rdDigit_dc _ ha, rdDigit_dc _ hb, Bind.bind, Option.bind, pure]

theorem rd2_pad2 (n : Nat) (h : n ≤ 99) (rest : List Char) :
    rd2 (pad2 n ++ rest) = some (n, rest) := by
  have h1 := rd2_dc (n / 10) (n % 10) (by omega) (by omega) rest
  have h2 : 10 * (n / 10) + n % 10 = n := by omega
  simpa [pad2, h2] using h1

theorem rd4_dc (a b c d : Nat) (ha : a ≤ 9) (hb : b ≤ 9) (hc : c ≤ 9)
    (hd : d ≤ 9) (rest : List Char) :
    rd4 (dc a :: dc b :: dc c :: dc d :: rest)
      = some (100 * (10 * a + b) + (10 * c + d), rest) := by
  simp [rd4, rd2_dc _ _ ha hb, rd2_dc _ _ hc hd, Bind.bind, Option.bind, pure]

theorem natCharsB_small (f n : Nat) (h : n < 10) : natCharsB (f + 1) n = [dc n] := by
  simp [natCharsB, h]

theorem natCharsB_step (f n : Nat) (h : ¬ n < 10) :
    natCharsB (f + 1) n = natCharsB f (n / 10) ++ [dc (n % 10)] := by
  simp [natCharsB, h]

theorem natCharsB_one (f n : Nat) (hf : 1 ≤ f) (h : n < 10) :
    natCharsB f n = [dc n] := by
  obtain ⟨g, rfl⟩ : ∃ g, f = g + 1 := ⟨f - 1, by omega⟩
  exact natCharsB_small g n h

theorem natCharsB_two (f n : Nat) (hf : 2 ≤ f) (h1 : 10 ≤ n) (h2 : n < 100) :
    natCharsB f n = [dc (n / 10), dc (n % 10)] := by
  obtain ⟨g, rfl⟩ : ∃ g, f = g + 2 := ⟨f - 2, by omega⟩
  rw [show g + 2 = (g + 1) + 1 from rfl, natCharsB_step _ _ (by omega),
      natCharsB_one (g + 1) (n / 10) (by omega) (by omega)]
  rfl

theorem natCharsB_three (f n : Nat) (hf : 3 ≤ f) (h1 : 100 ≤ n) (h2 : n < 1000) :
    natCharsB f n = [dc (n / 100), dc (n / 10 % 10), dc (n % 10)] := by
  obtain ⟨g, rfl⟩ : ∃ g, f = g + 3 := ⟨f - 3, by omega⟩
  rw [show g + 3 = (g + 2) + 1 from rfl, natCharsB_step _ _ (by omega),
      natCharsB_two (g + 2) (n / 10) (by omega) (by omega) (by omega)]
  have h3 : n / 10 / 10 = n / 100 := by omega
  rw [h3]
  rfl

theorem natCharsB_four (f n : Nat) (hf : 4 ≤ f) (h1 : 1000 ≤ n) (h2 : n < 10000) :
    natCharsB f n = [dc (n / 1000), dc (n / 100 % 10), dc (n / 10 % 10), dc (n % 10)] := by
  obtain ⟨g, rfl⟩ : ∃ g, f = g + 4 := ⟨f - 4, by omega⟩
  rw [show g + 4 = (g + 3) + 1 from rfl, natCharsB_step _ _ (by omega),
      natCharsB_three (g + 3) (n / 10) (by omega) (by omega) (by omega)]
  have h3 : n / 10 / 100 = n / 1000 := by omega
  have h4 : n / 10 / 10 % 10 = n / 100 % 10 := by omega
  rw [h3, h4]
  rfl

theorem natChars_four (y : Nat) (h1 : 1000 ≤ y) (h2 : y ≤ 9999) :
    natChars y = [dc (y / 1000), dc (y / 100 % 10), dc (y / 10 % 10), dc (y % 10)] :=
  natCharsB_four (y + 1) y (by omega) h1 (by omega)

theorem rd4_natChars (y : Nat) (h1 : 1000 ≤ y) (h2 : y ≤ 9999) (rest : List Char) :
    rd4 (natChars y ++ rest) = some (y, rest) := by
  rw [natChars_four y h1 h2]
  have h := rd4_dc (y / 1000) (y / 100 % 10) (y / 10 % 10) (y % 10)
    (by omega) (by omega) (by omega) (by omega) rest
  have h3 : 100 * (10 * (y / 1000) + y / 100 % 10) + (10 * (y / 10 % 10) + y % 10) = y := by
    omega
  rw [h3] at h
  simpa using h

theorem replaceZ_append (a b : List Char) :
    replaceZ (a ++ b) = replaceZ a ++ replaceZ b := by
  induction a with
  | nil => rfl
  | cons c cs ih => simp [replaceZ, ih]

theorem replaceZ_noZ (cs : List Char) (h : ∀ c ∈ cs, c ≠ 'Z') :
    replaceZ cs = cs := by
  induction cs with
  | nil => rfl
  | cons c rest ih =>
    have hc : c ≠ 'Z' := h c (by simp)
    simp [replaceZ, hc, ih fun x hx => h x (by simp [hx])]

theorem natCharsB_mem (f : Nat) : ∀ n : Nat, ∀ c ∈ natCharsB f n, ∃ k, k ≤ 9 ∧ c = dc k := by
  induction f with
  | zero => intro n c hc; simp [natCharsB] at hc
  | succ g ih =>
    intro n c hc
    by_cases h : n < 10
    · rw [natCharsB_small g n h] at hc
      simp at hc
      exact ⟨n, by omega, hc⟩
    · rw [natCharsB_step g n h] at hc
      simp at hc
      rcases hc with hc | hc
      · exact ih (n / 10) c hc
      · exact ⟨n % 10, by omega, hc⟩

theorem pad2_mem (n : Nat) (h : n ≤ 99) : ∀ c ∈ pad2 n, ∃ k, k ≤ 9 ∧ c = dc k := by
  intro c hc
  simp [pad2] at hc
  rcases hc with hc | hc
  · exact ⟨n / 10, by omega, hc⟩
  · exact ⟨n % 10, by omega, hc⟩

theorem replaceZ_natChars (n : Nat) : replaceZ (natChars n) = natChars n :=
  replaceZ_noZ _ fun c hc => by
    obtain ⟨k, hk, rfl⟩ := natCharsB_mem (n + 1) n c hc
    exact dc_ne_Z k hk

theorem replaceZ_pad2 (n : Nat) (h : n ≤ 99) : replaceZ (pad2 n) = pad2 n :=
  replaceZ_noZ _ fun c hc => by
    obtain ⟨k, hk, rfl⟩ := pad2_mem n h c hc
    exact dc_ne_Z k hk

theorem replaceZ_cons_ne (c : Char) (h : c ≠ 'Z') (cs : List Char) :
    replaceZ (c :: cs) = c :: replaceZ cs := by
  simp [replaceZ, h]

theorem replaceZ_Z : replaceZ ['Z'] = ['+', '0', '0', ':', '0', '0'] := rfl

theorem replaceZ_fmtChars (dt : DT) (hmo : dt.mo ≤ 99) (hd : dt.d ≤ 99)
    (hh : dt.hh ≤ 99) (hmi : dt.mi ≤ 99) (hss : dt.ss ≤ 99) :
    replaceZ (fmtChars dt) =
      natChars dt.y ++ '-' :: (pad2 dt.mo ++ '-' :: (pad2 dt.d ++ ' ' ::
        (pad2 dt.hh ++ ':' :: (pad2 dt.mi ++ ':' ::
          (pad2 dt.ss ++ ['+', '0', '0', ':', '0', '0']))))) := by
  simp only [fmtChars, replaceZ_append, replaceZ_natChars,
    replaceZ_pad2 _ hmo, replaceZ_pad2 _ hd, replaceZ_pad2 _ hh,
    replaceZ_pad2 _ hmi, replaceZ_pad2 _ hss,
    replaceZ_cons_ne '-' (by decide), replaceZ_cons_ne ' ' (by decide),
    replaceZ_cons_ne ':' (by decide), replaceZ_Z]

theorem natChars_small (n : Nat) (h : n < 10) : natChars n = [dc n] :=
  natCharsB_one (n + 1) n (by omega) h

theorem natChars_two (n : Nat) (h1 : 10 ≤ n) (h2 : n < 100) :
    natChars n = [dc (n / 10), dc (n % 10)] :=
  natCharsB_two (n + 1) n (by omega) h1 h2

theorem natChars_three (n : Nat) (h1 : 100 ≤ n) (h2 : n < 1000) :
    natChars n = [dc (n / 100), dc (n / 10 % 10), dc (n % 10)] :=
  natCharsB_three (n + 1) n (by omega) h1 h2

theorem rdChar_cons (c : Char) (rest : List Char) : rdChar c (c :: rest) = some rest := by
  simp [rdChar]

theorem rdDigit_nondigit (c : Char) (h : isDigitCh c = false) (rest : List Char) :
    rdDigit (c :: rest) = none := by
  simp [rdDigit, h]

theorem rdFrac_tz (cs : List Char) : rdFrac ('+' :: cs) = some ('+' :: cs) := rfl

theorem daysInMonth_le (y mo : Nat) : daysInMonth y mo ≤ 31 := by
  unfold daysInMonth
  split
  · split <;> omega
  · split <;> omega

theorem daysInMonth_pos (y mo : Nat) : 1 ≤ daysInMonth y mo := by
  unfold daysInMonth
  split
  · split <;> omega
  · split <;> omega

theorem rdTime_fmt (hh mi ss : Nat) (h1 : hh ≤ 23) (h2 : mi ≤ 59) (h3 : ss ≤ 59) :
    rdTime (pad2 hh ++ ':' :: (pad2 mi ++ ':' :: (pad2 ss ++ ['+', '0', '0', ':', '0', '0'])))
      = some (hh, mi, ss, some 0) := by
  have hz : rdTz ['+', '0', '0', ':', '0', '0'] = some (some 0) := by decide
  simp only [rdTime, rd2_pad2 hh (by omega) _, rd2_pad2 mi (by omega) _,
    rd2_pad2 ss (by omega) _, Bind.bind, Option.bind, rdFrac_tz, hz,
    if_pos h1, if_pos h2, if_pos h3, pure]

theorem parse_fmt (dt : DT) (hv : ValidDT dt) (h4 : 1000 ≤ dt.y) :
    parseDT (replaceZ (fmtChars dt)) = some (dt, some 0) := by
  obtain ⟨y, mo, d, hh, mi, ss⟩ := dt
  obtain ⟨hy1, hy2, hmo1, hmo2, hd1, hd2, hhh, hmi, hss⟩ := hv
  dsimp only at h4 hy1 hy2 hmo1 hmo2 hd1 hd2 hhh hmi hss
  have hdle : d ≤ 31 := le_trans hd2 (daysInMonth_le y mo)
  rw [replaceZ_fmtChars ⟨y, mo, d, hh, mi, ss⟩ (by dsimp only; omega)
    (by dsimp only; omega) (by dsimp only; omega) (by dsimp only; omega)
    (by dsimp only; omega)]
  dsimp only
  simp only [parseDT, rd4_natChars y h4 hy2, rdChar_cons,
    rd2_pad2 mo (by omega) _, rd2_pad2 d (by omega) _, Bind.bind, Option.bind]
  rw [if_pos ⟨hy1, hmo1, hmo2, hd1, hd2⟩]
  simp only [rdTime_fmt hh mi ss hhh hmi hss, Option.bind, pure]

theorem parse_fmt_small (dt : DT) (hv : ValidDT dt) (h4 : dt.y < 1000) :
    parseDT (replaceZ (fmtChars dt)) = none := by
  obtain ⟨y, mo, d, hh, mi, ss⟩ := dt
  obtain ⟨hy1, hy2, hmo1, hmo2, hd1, hd2, hhh, hmi, hss⟩ := hv
  dsimp only at h4 hy1 hy2 hmo1 hmo2 hd1 hd2 hhh hmi hss
  have hdle : d ≤ 31 := le_trans hd2 (daysInMonth_le y mo)
  rw [replaceZ_fmtChars ⟨y, mo, d, hh, mi, ss⟩ (by dsimp only; omega)
    (by dsimp only; omega) (by dsimp only; omega) (by dsimp only; omega)
    (by dsimp only; omega)]
  dsimp only
  have hdash : isDigitCh '-' = false := by decide
  rcases Nat.lt_or_ge y 10 with h10 | h10
  · rw [natChars_small y h10]
    simp [parseDT, rd4, rd2, rdDigit_dc y (by omega),
      rdDigit_nondigit '-' hdash, Bind.bind, Option.bind]
  rcases Nat.lt_or_ge y 100 with h100 | h100
  · rw [natChars_two y h10 h100]
    simp [parseDT, rd4, rd2, rdDigit_dc (y / 10) (by omega),
      rdDigit_dc (y % 10) (by omega), rdDigit_nondigit '-' hdash,
      Bind.bind, Option.bind]
  · rw [natChars_three y h100 h4]
    simp [parseDT, rd4, rd2, rdDigit_dc (y / 100) (by omega),
      rdDigit_dc (y / 10 % 10) (by omega), rdDigit_dc (y % 10) (by omega),
      rdDigit_nondigit '-' hdash, Bind.bind, Option.bind]

theorem rdDigit_le (cs : List Char) (v : Nat) (r : List Char)
    (h : rdDigit cs = some (v, r)) : v ≤ 9 := by
  cases cs with
  | nil => exact absurd h (by simp [rdDigit])
  | cons c rest =>
    simp only [rdDigit] at h
    split at h
    · rename_i hc
      simp [isDigitCh] at hc
      injection h with h1
      rw [Prod.mk.injEq] at h1
      omega
    · exact absurd h (by simp)

theorem rd2_le (cs : List Char) (v : Nat) (r : List Char)
    (h : rd2 cs = some (v, r)) : v ≤ 99 := by
  simp only [rd2] at h
  simp only [Bind.bind, Option.bind_eq_some] at h
  obtain ⟨⟨a, cs1⟩, ha, h⟩ := h
  obtain ⟨⟨b, cs2⟩, hb, h⟩ := h
  have h2 := rdDigit_le cs a cs1 ha
  have h3 := rdDigit_le cs1 b cs2 hb
  simp only [pure, Option.some.injEq, Prod.mk.injEq] at h
  omega

theorem rd4_le (cs : List Char) (v : Nat) (r : List Char)
    (h : rd4 cs = some (v, r)) : v ≤ 9999 := by
  simp only [rd4] at h
  simp only [Bind.bind, Option.bind_eq_some] at h
  obtain ⟨⟨a, cs1⟩, ha, h⟩ := h
  obtain ⟨⟨b, cs2⟩, hb, h⟩ := h
  have h2 := rd2_le cs a cs1 ha
  have h3 := rd2_le cs1 b cs2 hb
  simp only [pure, Option.some.injEq, Prod.mk.injEq] at h
  omega

theorem rdTz_bound (cs : List Char) (o : Option Int) (h : rdTz cs = some o) :
    offOK o := by
  cases cs with
  | nil =>
    simp [rdTz] at h
    subst h
    exact trivial
  | cons c rest =>
    simp only [rdTz, Bind.bind] at h
    split at h
    · cases h1 : rd2 rest with
      | none => rw [h1] at h; simp [Option.bind] at h
      | some p =>
        rw [h1] at h
        obtain ⟨hv, cs1⟩ := p
        dsimp only [Option.bind] at h
        cases h2 : rdChar ':' cs1 with
        | none => rw [h2] at h; simp [Option.bind] at h
        | some cs2 =>
          rw [h2] at h
          dsimp only [Option.bind] at h
          cases h3 : rd2 cs2 with
          | none => rw [h3] at h; simp [Option.bind] at h
          | some q =>
            rw [h3] at h
            obtain ⟨mv, cs3⟩ := q
            dsimp only [Option.bind] at h
            split at h
            · rename_i cs5
              cases h4 : rd2 cs5 with
              | none => rw [h4] at h; simp [Option.bind] at h
              | some w =>
                rw [h4] at h
                obtain ⟨sv, cs4⟩ := w
                dsimp only [Option.bind] at h
                split at h
                · split at h
                  · rename_i hvalid
                    try dsimp only at h
                    injection h with h1
                    subst h1
                    simp only [offOK]
                    obtain ⟨hb1, hb2, hb3⟩ := hvalid
                    split <;> constructor <;> omega
                  · exact absurd h (by simp)
                · exact absurd h (by simp)
            · try dsimp only [Option.bind] at h
              split at h
              · split at h
                · rename_i hvalid
                  try dsimp only at h
                  injection h with h1
                  subst h1
                  simp only [offOK]
                  obtain ⟨hb1, hb2, hb3⟩ := hvalid
                  split <;> constructor <;> omega
                · exact absurd h (by simp)
              · exact absurd h (by simp)
    · exact absurd h (by simp)

theorem rdTime_valid (cs : List Char) (hh mi ss : Nat) (off : Option Int)
    (h : rdTime cs = some (hh, mi, ss, off)) :
    hh ≤ 23 ∧ mi ≤ 59 ∧ ss ≤ 59 ∧ offOK off := by
  simp only [rdTime, Bind.bind] at h
  cases h1 : rd2 cs with
  | none => rw [h1] at h; simp [Option.bind] at h
  | some p =>
    rw [h1] at h
    obtain ⟨h1v, cs1⟩ := p
    dsimp only [Option.bind] at h
    split at h
    case isTrue h1le =>
      split at h
      · rename_i cs2
        cases h2 : rd2 cs2 with
        | none => rw [h2] at h; simp [Option.bind] at h
        | some q =>
          rw [h2] at h
          obtain ⟨miv, cs3⟩ := q
          dsimp only [Option.bind] at h
          split at h
          case isTrue hmile =>
            split at h
            · rename_i cs4
              cases h3 : rd2 cs4 with
              | none => rw [h3] at h; simp [Option.bind] at h
              | some w =>
                rw [h3] at h
                obtain ⟨ssv, cs5⟩ := w
                dsimp only [Option.bind] at h
                split at h
                case isTrue hssle =>
                  cases h4 : rdFrac cs5 with
                  | none => rw [h4] at h; simp [Option.bind] at h
                  | some cs6 =>
                    rw [h4] at h
                    dsimp only [Option.bind] at h
                    cases h5 : rdTz cs6 with
                    | none => rw [h5] at h; simp [Option.bind] at h
                    | some o1 =>
                      rw [h5] at h
                      dsimp only [Option.bind] at h
                      simp only [pure, Option.some.injEq, Prod.mk.injEq] at h
                      obtain ⟨e1, e2, e3, e4⟩ := h
                      subst e1; subst e2; subst e3; subst e4
                      exact ⟨h1le, hmile, hssle, rdTz_bound cs6 _ h5⟩
                case isFalse => exact absurd h (by simp)
            · cases h5 : rdTz cs3 with
              | none => rw [h5] at h; simp [Option.bind] at h
              | some o1 =>
                rw [h5] at h
                dsimp only [Option.bind] at h
                simp only [pure, Option.some.injEq, Prod.mk.injEq] at h
                obtain ⟨e1, e2, e3, e4⟩ := h
                subst e1; subst e2; subst e3; subst e4
                exact ⟨h1le, hmile, by omega, rdTz_bound cs3 _ h5⟩
          case isFalse => exact absurd h (by simp)
      · cases h5 : rdTz cs1 with
        | none => rw [h5] at h; simp [Option.bind] at h
        | some o1 =>
          rw [h5] at h
          dsimp only [Option.bind] at h
          simp only [pure, Option.some.injEq, Prod.mk.injEq] at h
          obtain ⟨e1, e2, e3, e4⟩ := h
          subst e1; subst e2; subst e3; subst e4
          exact ⟨h1le, by omega, by omega, rdTz_bound cs1 _ h5⟩
    case isFalse => exact absurd h (by simp)

theorem parseDT_valid (cs : List Char) (dt : DT) (off : Option Int)
    (h : parseDT cs = some (dt, off)) : ValidDT dt ∧ offOK off := by
  simp only [parseDT, Bind.bind] at h
  cases hr4 : rd4 cs with
  | none => rw [hr4] at h; simp [Option.bind] at h
  | some p =>
    rw [hr4] at h
    obtain ⟨y, cs1⟩ := p
    dsimp only [Option.bind] at h
    have hy := rd4_le cs y cs1 hr4
    cases hc1 : rdChar '-' cs1 with
    | none => rw [hc1] at h; simp [Option.bind] at h
    | some cs2 =>
      rw [hc1] at h
      dsimp only [Option.bind] at h
      cases hr2 : rd2 cs2 with
      | none => rw [hr2] at h; simp [Option.bind] at h
      | some q =>
        rw [hr2] at h
        obtain ⟨mo, cs3⟩ := q
        dsimp only [Option.bind] at h
        cases hc2 : rdChar '-' cs3 with
        | none => rw [hc2] at h; simp [Option.bind] at h
        | some cs4 =>
          rw [hc2] at h
          dsimp only [Option.bind] at h
          cases hr3 : rd2 cs4 with
          | none => rw [hr3] at h; simp [Option.bind] at h
          | some w =>
            rw [hr3] at h
            obtain ⟨d, cs5⟩ := w
            dsimp only [Option.bind] at h
            split at h
            case isTrue hvalid =>
              obtain ⟨hv1, hv2, hv3, hv4, hv5⟩ := hvalid
              split at h
              · simp only [pure, Option.some.injEq, Prod.mk.injEq] at h
                obtain ⟨e1, e2⟩ := h
                subst e1; subst e2
                exact ⟨⟨hv1, hy, hv2, hv3, hv4, hv5, by dsimp only; omega,
                  by dsimp only; omega, by dsimp only; omega⟩, trivial⟩
              · rename_i sep timecs
                cases ht : rdTime timecs with
                | none => rw [ht] at h; simp [Option.bind] at h
                | some v =>
                  rw [ht] at h
                  obtain ⟨hh2, mi2, ss2, off2⟩ := v
                  dsimp only [Option.bind] at h
                  obtain ⟨hb1, hb2, hb3, hb4⟩ := rdTime_valid timecs hh2 mi2 ss2 off2 ht
                  simp only [pure, Option.some.injEq, Prod.mk.injEq] at h
                  obtain ⟨e1, e2⟩ := h
                  subst e1; subst e2
                  exact ⟨⟨hv1, hy, hv2, hv3, hv4, hv5, hb1, hb2, hb3⟩, hb4⟩
            case isFalse => exact absurd h (by simp)

theorem daysInMonth_12 (y : Nat) : daysInMonth y 12 = 31 := rfl

theorem prevDay_valid (y mo d y2 mo2 d2 : Nat)
    (hy1 : 1 ≤ y) (hy2 : y ≤ 9999) (hmo1 : 1 ≤ mo) (hmo2 : mo ≤ 12)
    (hd1 : 1 ≤ d) (hd2 : d ≤ daysInMonth y mo)
    (h : prevDay y mo d = some (y2, mo2, d2)) :
    1 ≤ y2 ∧ y2 ≤ 9999 ∧ 1 ≤ mo2 ∧ mo2 ≤ 12 ∧ 1 ≤ d2 ∧ d2 ≤ daysInMonth y2 mo2 := by
  unfold prevDay at h
  split at h
  · rename_i hc
    injection h with h1
    rw [Prod.mk.injEq, Prod.mk.injEq] at h1
    obtain ⟨rfl, rfl, rfl⟩ := h1
    exact ⟨hy1, hy2, hmo1, hmo2, by omega, by omega⟩
  split at h
  · rename_i hc hc2
    injection h with h1
    rw [Prod.mk.injEq, Prod.mk.injEq] at h1
    obtain ⟨rfl, rfl, rfl⟩ := h1
    exact ⟨hy1, hy2, by omega, by omega, daysInMonth_pos y (mo - 1), le_refl _⟩
  split at h
  · rename_i hc hc2 hc3
    injection h with h1
    rw [Prod.mk.injEq, Prod.mk.injEq] at h1
    obtain ⟨rfl, rfl, rfl⟩ := h1
    exact ⟨by omega, by omega, by omega, by omega, by omega, (daysInMonth_12 (y - 1)).ge⟩
  · exact absurd h (by simp)

theorem nextDay_valid (y mo d y2 mo2 d2 : Nat)
    (hy1 : 1 ≤ y) (hy2 : y ≤ 9999) (hmo1 : 1 ≤ mo) (hmo2 : mo ≤ 12)
    (hd1 : 1 ≤ d) (hd2 : d ≤ daysInMonth y mo)
    (h : nextDay y mo d = some (y2, mo2, d2)) :
    1 ≤ y2 ∧ y2 ≤ 9999 ∧ 1 ≤ mo2 ∧ mo2 ≤ 12 ∧ 1 ≤ d2 ∧ d2 ≤ daysInMonth y2 mo2 := by
  unfold nextDay at h
  split at h
  · rename_i hc
    injection h with h1
    rw [Prod.mk.injEq, Prod.mk.injEq] at h1
    obtain ⟨rfl, rfl, rfl⟩ := h1
    exact ⟨hy1, hy2, hmo1, hmo2, by omega, by omega⟩
  split at h
  · rename_i hc hc2
    injection h with h1
    rw [Prod.mk.injEq, Prod.mk.injEq] at h1
    obtain ⟨rfl, rfl, rfl⟩ := h1
    exact ⟨hy1, hy2, by omega, by omega, le_refl 1, daysInMonth_pos y (mo + 1)⟩
  split at h
  · rename_i hc hc2 hc3
    injection h with h1
    rw [Prod.mk.injEq, Prod.mk.injEq] at h1
    obtain ⟨rfl, rfl, rfl⟩ := h1
    exact ⟨by omega, by omega, by omega, by omega, le_refl 1, daysInMonth_pos (y + 1) 1⟩
  · exact absurd h (by simp)

theorem toUTC_valid (dt dt2 : DT) (off : Option Int)
    (hv : ValidDT dt) (ho : offOK off) (h : toUTC dt off = some dt2) :
    ValidDT dt2 := by
  obtain ⟨y, mo, d, hh, mi, ss⟩ := dt
  obtain ⟨hy1, hy2, hmo1, hmo2, hd1, hd2, hhh, hmi, hss⟩ := hv
  dsimp only at hy1 hy2 hmo1 hmo2 hd1 hd2 hhh hmi hss
  cases off with
  | none =>
    simp only [toUTC] at h
    injection h with h1
    rw [← h1]
    exact ⟨hy1, hy2, hmo1, hmo2, hd1, hd2, hhh, hmi, hss⟩
  | some o =>
    simp only [offOK] at ho
    simp only [toUTC] at h
    try dsimp only at h
    split at h
    · rename_i hneg
      cases hp : prevDay y mo d with
      | none => rw [hp] at h; simp at h
      | some x =>
        rw [hp] at h
        obtain ⟨y2, mo2, d2⟩ := x
        simp only [Option.map] at h
        try dsimp only at h
        injection h with h1
        obtain ⟨g1, g2, g3, g4, g5, g6⟩ :=
          prevDay_valid y mo d y2 mo2 d2 hy1 hy2 hmo1 hmo2 hd1 hd2 hp
        rw [← h1]
        refine ⟨g1, g2, g3, g4, g5, g6, ?_, ?_, ?_⟩ <;> (dsimp only; omega)
    · rename_i hneg
      split at h
      · rename_i hbig
        cases hp : nextDay y mo d with
        | none => rw [hp] at h; simp at h
        | some x =>
          rw [hp] at h
          obtain ⟨y2, mo2, d2⟩ := x
          simp only [Option.map] at h
          try dsimp only at h
          injection h with h1
          obtain ⟨g1, g2, g3, g4, g5, g6⟩ :=
            nextDay_valid y mo d y2 mo2 d2 hy1 hy2 hmo1 hmo2 hd1 hd2 hp
          rw [← h1]
          refine ⟨g1, g2, g3, g4, g5, g6, ?_, ?_, ?_⟩ <;> (dsimp only; omega)
      · rename_i hbig
        injection h with h1
        rw [← h1]
        refine ⟨hy1, hy2, hmo1, hmo2, hd1, hd2, ?_, ?_, ?_⟩ <;> (dsimp only; omega)

theorem toUTC_zero (dt : DT) (hv : ValidDT dt) : toUTC dt (some 0) = some dt := by
  obtain ⟨y, mo, d, hh, mi, ss⟩ := dt
  obtain ⟨hy1, hy2, hmo1, hmo2, hd1, hd2, hhh, hmi, hss⟩ := hv
  dsimp only at hhh hmi hss
  simp only [toUTC]
  try dsimp only
  split
  · rename_i hneg
    exact absurd hneg (by omega)
  · split
    · rename_i hbig
      exact absurd hbig (by omega)
    · simp only [Option.some.injEq, DT.mk.injEq]
      refine ⟨by trivial, by trivial, by trivial, ?_, ?_, ?_⟩ <;> omega

theorem normTs_valid (s out : String) (h : normTs s = some out) :
    ∃ dt, ValidDT dt ∧ out = fmtDT dt := by
  unfold normTs at h
  cases hp : parseDT (replaceZ s.toList) with
  | none => rw [hp] at h; simp at h
  | some p =>
    obtain ⟨dt0, off⟩ := p
    rw [hp] at h
    dsimp only [Option.bind] at h
    cases ht : toUTC dt0 off with
    | none => rw [ht] at h; simp at h
    | some dt1 =>
      rw [ht] at h
      simp only [Option.map] at h
      injection h with h1
      obtain ⟨hv0, ho⟩ := parseDT_valid _ dt0 off hp
      exact ⟨dt1, toUTC_valid dt0 dt1 off hv0 ho ht, h1.symm⟩

theorem mk_isEmpty_cons (c : Char) (cs : List Char) :
    (String.mk (c :: cs)).isEmpty = false := by
  simp [String.isEmpty, String.Pos.ext_iff]
  have := Char.utf8Size_pos c
  omega

theorem fmt_truthy (dt : DT) : truthy (.str (fmtDT dt)) = true := by
  simp only [truthy, fmtDT]
  cases hn : natChars dt.y with
  | nil =>
    simp only [fmtChars, hn, List.nil_append]
    simp [mk_isEmpty_cons]
  | cons c rest =>
    simp only [fmtChars, hn, List.cons_append]
    simp [mk_isEmpty_cons]

theorem normTs_fmt (dt : DT) (hv : ValidDT dt) (h4 : 1000 ≤ dt.y) :
    normTs (fmtDT dt) = some (fmtDT dt) := by
  unfold normTs
  rw [show (fmtDT dt).toList = fmtChars dt from rfl, parse_fmt dt hv h4]
  dsimp only [Option.bind]
  rw [toUTC_zero dt hv]
  simp [Option.map]

theorem normTs_fmt_small (dt : DT) (hv : ValidDT dt) (h4 : dt.y < 1000) :
    normTs (fmtDT dt) = none := by
  unfold normTs
  rw [show (fmtDT dt).toList = fmtChars dt from rfl, parse_fmt_small dt hv h4]
  rfl

/-- C10: `to_iso8601` is idempotent on every input, not only on the
well-formed UTC timestamps the spec mentions: the placeholder `"-"` and
every unparseable string are fixed points, and a normalized output either
re-parses to exactly the same datetime with offset `+00:00` (years ≥ 1000)
or fails to parse because its unpadded `%Y` rendering has fewer than four
digits (years < 1000) — in both cases a second application returns it
unchanged. -/
theorem C10_to_iso8601_idempotent (v : JValue) :
    to_iso8601 (to_iso8601 v) = to_iso8601 v := by
  by_cases htv : truthy v = true
  · cases v with
    | null => simp [truthy] at htv
    | bool b =>
      have hts : to_iso8601 (.bool b) = .bool b := by simp [to_iso8601, htv]
      rw [hts]; exact hts
    | num n =>
      have hts : to_iso8601 (.num n) = .num n := by simp [to_iso8601, htv]
      rw [hts]; exact hts
    | arr xs =>
      have hts : to_iso8601 (.arr xs) = .arr xs := by simp [to_iso8601, htv]
      rw [hts]; exact hts
    | obj fs =>
      have hts : to_iso8601 (.obj fs) = .obj fs := by simp [to_iso8601, htv]
      rw [hts]; exact hts
    | str s =>
      rcases hn : normTs s with _ | out
      · have hts : to_iso8601 (.str s) = .str s := by simp [to_iso8601, htv, hn]
        rw [hts]; exact hts
      · have hts : to_iso8601 (.str s) = .str out := by simp [to_iso8601, htv, hn]
        rw [hts]
        obtain ⟨dt, hv, rfl⟩ := normTs_valid s out hn
        have htr : truthy (.str (fmtDT dt)) = true := fmt_truthy dt
        rcases Nat.lt_or_ge dt.y 1000 with hy | hy
        · have h2 : normTs (fmtDT dt) = none := normTs_fmt_small dt hv hy
          simp [to_iso8601, htr, h2]
        · have h2 : normTs (fmtDT dt) = some (fmtDT dt) := normTs_fmt dt hv hy
          simp [to_iso8601, htr, h2]
  · simp only [Bool.not_eq_true] at htv
    have h1 : to_iso8601 v = .str "-" := by simp [to_iso8601, htv]
    rw [h1]
    rfl

end SSM
